import Mathlib

/-!
# Win32Template: the clock view and its window shell

A shallow embedding of `BaseWindow.h` and `MainWindow.cpp`.

* COM interface pointers are `Option`s: `none` is `NULL`.
* Calling a method through a `NULL` pointer is a `Fault`; the fault keeps the
  calls that had been issued before it.
* Every call into the operating system or the graphics library is appended to
  the ghost field `MainWindow.trace`; what those calls answer (result codes,
  new interface pointers, the client rectangle, the local time) is read from an
  `Env`, one per handled message.
* `float` arithmetic is carried out in `ℚ`; `unsigned long long` arithmetic is
  carried out in `Nat` modulo `2 ^ 64`.
-/

namespace Win32Template

/-! ## Platform types and constants -/

abbrev HWND := Nat
abbrev UINT := Nat
abbrev WPARAM := Nat
abbrev LPARAM := Int
abbrev LRESULT := Int
abbrev HRESULT := Int

/-- Identity of a live COM object: what a non-null interface pointer points to. -/
abbrev Handle := Nat

def WM_CREATE : UINT := 0x0001
def WM_DESTROY : UINT := 0x0002
def WM_SIZE : UINT := 0x0005
def WM_PAINT : UINT := 0x000F
def WM_NCCREATE : UINT := 0x0081
def WM_TIMER : UINT := 0x0113

def S_OK : HRESULT := 0

/-- The HRESULT `0x8899000C`, read as a signed 32-bit value. -/
def D2DERR_RECREATE_TARGET : HRESULT := 0x8899000C - 2 ^ 32

/-- The macro `SUCCEEDED(hr)`: `hr >= 0`. -/
def SUCCEEDED (hr : HRESULT) : Bool := decide (0 ≤ hr)

/-- The macro `FAILED(hr)`: `hr < 0`. -/
def FAILED (hr : HRESULT) : Bool := decide (hr < 0)

structure RECT where
  left : Int
  top : Int
  right : Int
  bottom : Int
  deriving DecidableEq

structure SYSTEMTIME where
  wHour : Nat
  wMinute : Nat
  wSecond : Nat
  wMilliseconds : Nat
  deriving DecidableEq

structure D2D1_SIZE_U where
  width : Nat
  height : Nat
  deriving DecidableEq

structure D2D1_SIZE_F where
  width : ℚ
  height : ℚ
  deriving DecidableEq

structure D2D1_POINT_2F where
  x : ℚ
  y : ℚ
  deriving DecidableEq

structure D2D1_RECT_F where
  left : ℚ
  top : ℚ
  right : ℚ
  bottom : ℚ
  deriving DecidableEq

structure D2D1_ELLIPSE where
  point : D2D1_POINT_2F
  radiusX : ℚ
  radiusY : ℚ
  deriving DecidableEq

/-- The colours the view uses. -/
inductive ColorF where
  | LightSkyBlue
  | AntiqueWhite
  | Black
  | OrangeRed
  | rgb (r g b : ℚ)
  deriving DecidableEq

/-- The transforms the view sets on its render target, kept symbolic. -/
inductive Matrix3x2F where
  | Identity
  | Rotation (angle : ℚ) (center : D2D1_POINT_2F)
  deriving DecidableEq

/-- The helper `D2D1::SizeU(x, y)` applied to two `LONG`s: each is converted to `UINT32`. -/
def SizeU (x y : Int) : D2D1_SIZE_U :=
  { width := (x % 2 ^ 32).toNat, height := (y % 2 ^ 32).toNat }

/-- The Windows macro `min(a,b)`: `((a) < (b)) ? (a) : (b)`. -/
def min (a b : ℚ) : ℚ := if a < b then a else b

/-- A window render target: its identity and the size `GetSize` answers (in DIPs). -/
structure ID2D1HwndRenderTarget where
  handle : Handle
  size : D2D1_SIZE_F
  deriving DecidableEq

/-- Size in DIPs of a target of `px` physical pixels at `dpi` dots per inch. -/
def dipSize (dpi : ℚ) (px : D2D1_SIZE_U) : D2D1_SIZE_F :=
  { width := px.width * 96 / dpi, height := px.height * 96 / dpi }

def ID2D1HwndRenderTarget.GetSize (rt : ID2D1HwndRenderTarget) : D2D1_SIZE_F := rt.size

/-! ## Calls issued to the platform -/

inductive Call where
  | SetTimer (hwnd : HWND) (id : Nat) (elapse : Nat)
  | KillTimer (hwnd : HWND) (id : Nat)
  | PostQuitMessage (code : Int)
  | DefWindowProc (hwnd : HWND) (uMsg : UINT) (wParam : WPARAM) (lParam : LPARAM)
  | D2D1CreateFactory
  | DWriteCreateFactory
  | CreateTextFormat (writeFactory : Handle) (family : String) (fontSize : ℚ)
  | SetTextAlignment (format : Handle)
  | SetParagraphAlignment (format : Handle)
  | Release (obj : Handle)
  | GetClientRect (hwnd : HWND)
  | CreateHwndRenderTarget (factory : Handle) (hwnd : HWND) (size : D2D1_SIZE_U)
  | CreateSolidColorBrush (target : Handle) (color : ColorF)
  | Resize (target : Handle) (size : D2D1_SIZE_U)
  | InvalidateRect (hwnd : HWND)
  | BeginPaint (hwnd : HWND)
  | EndPaint (hwnd : HWND)
  | BeginDraw (target : Handle)
  | EndDraw (target : Handle)
  | Clear (target : Handle) (color : ColorF)
  | SetColor (brush : Handle) (color : ColorF)
  | FillEllipse (target : Handle) (ellipse : D2D1_ELLIPSE) (brush : Option Handle)
  | DrawEllipse (target : Handle) (ellipse : D2D1_ELLIPSE) (brush : Option Handle)
      (strokeWidth : ℚ)
  | SetTransform (target : Handle) (m : Matrix3x2F)
  | DrawLine (target : Handle) (p0 p1 : D2D1_POINT_2F) (brush : Option Handle)
      (strokeWidth : ℚ)
  | DrawText (target : Handle) (text : String) (length : Nat) (format : Option Handle)
      (rect : D2D1_RECT_F) (brush : Option Handle)
  | GetLocalTime
  | cout (line : String)
  deriving DecidableEq

/-!
A method is always called through a non-null pointer (otherwise the caller
faults), so the receiver of a call is a `Handle`; a pointer passed as an
argument may be `NULL`, so the brush and text-format arguments are `Option`s.
-/

/-- The calls that put something on the render target. -/
def Call.isDraw : Call → Bool
  | .Clear _ _ => true
  | .FillEllipse _ _ _ => true
  | .DrawEllipse _ _ _ _ => true
  | .DrawLine _ _ _ _ _ => true
  | .DrawText _ _ _ _ _ _ => true
  | _ => false

/-- The brush a drawing call is given, for the calls that take one. -/
def Call.brush? : Call → Option (Option Handle)
  | .FillEllipse _ _ b => some b
  | .DrawEllipse _ _ b _ => some b
  | .DrawLine _ _ _ b _ => some b
  | .DrawText _ _ _ _ _ b => some b
  | _ => none

/-- The render target a drawing call is issued on. -/
def Call.target? : Call → Option Handle
  | .Clear t _ => some t
  | .FillEllipse t _ _ => some t
  | .DrawEllipse t _ _ _ => some t
  | .DrawLine t _ _ _ _ => some t
  | .DrawText t _ _ _ _ _ => some t
  | _ => none

/-- A drawing call that is handed a null brush. -/
def Call.usesNull (c : Call) : Bool := c.brush? == some none

/-- The member pointers of the view that the code dereferences. -/
inductive Ptr where
  | pFactory
  | pWriteFactory
  | pTextFormat
  | pRenderTarget
  | pBrush
  deriving DecidableEq

/-- A method call through a null pointer: which pointer, and the calls issued before. -/
structure Fault where
  ptr : Ptr
  trace : List Call
  deriving DecidableEq

/-- What the platform answers while one message is handled. -/
structure Env where
  /-- Answer of `GetClientRect`. -/
  clientRect : RECT
  /-- Dots per inch of the render targets created or resized. -/
  dpi : ℚ
  /-- Answer of `GetLocalTime`. -/
  localTime : SYSTEMTIME
  /-- Result of `D2D1CreateFactory` and the factory it makes. -/
  factoryHr : HRESULT
  factoryPtr : Handle
  /-- Result of `DWriteCreateFactory` and the factory it makes. -/
  writeFactoryHr : HRESULT
  writeFactoryPtr : Handle
  /-- Result of `IDWriteFactory::CreateTextFormat` and the format it makes. -/
  textFormatHr : HRESULT
  textFormatPtr : Handle
  /-- Result of `ID2D1Factory::CreateHwndRenderTarget` and the target it makes. -/
  renderTargetHr : HRESULT
  renderTargetPtr : Handle
  /-- Result of `ID2D1RenderTarget::CreateSolidColorBrush` and the brush it makes. -/
  brushHr : HRESULT
  brushPtr : Handle
  /-- Result of `ID2D1HwndRenderTarget::Resize`. -/
  resizeHr : HRESULT
  /-- Result of `ID2D1RenderTarget::EndDraw`. -/
  endDrawHr : HRESULT
  /-- Result of `DefWindowProc`. -/
  defWindowProc : HWND → UINT → WPARAM → LPARAM → LRESULT

/-- An out-parameter of a creation call: the new object on success, `NULL` on failure. -/
def outPtr {α : Type} (hr : HRESULT) (obj : α) : Option α :=
  if SUCCEEDED hr then some obj else none

/-! ## MainWindow -/

structure MainWindow where
  m_hwnd : HWND
  pFactory : Option Handle
  pWriteFactory : Option Handle
  pTextFormat : Option Handle
  pRenderTarget : Option ID2D1HwndRenderTarget
  pBrush : Option Handle
  ellipse : D2D1_ELLIPSE
  timerId : Nat
  timeElapsed : Nat
  /-- Ghost: the platform calls this view has issued, oldest first. -/
  trace : List Call
  deriving DecidableEq

/-- The constructors `BaseWindow()` and `MainWindow()`; `ellipse` is left uninitialised. -/
def MainWindow.new (ellipse : D2D1_ELLIPSE) : MainWindow :=
  { m_hwnd := 0, pFactory := none, pWriteFactory := none, pTextFormat := none,
    pRenderTarget := none, pBrush := none, ellipse := ellipse, timerId := 1,
    timeElapsed := 0, trace := [] }

/-- Record platform calls. -/
def MainWindow.emit (s : MainWindow) (cs : List Call) : MainWindow :=
  { s with trace := s.trace ++ cs }

namespace MainWindow

/-- The call `SafeRelease(&pRenderTarget)`. -/
def SafeRelease_pRenderTarget (s : MainWindow) : MainWindow :=
  match s.pRenderTarget with
  | some rt => { s.emit [.Release rt.handle] with pRenderTarget := none }
  | none => s

/-- The call `SafeRelease(&pBrush)`. -/
def SafeRelease_pBrush (s : MainWindow) : MainWindow :=
  match s.pBrush with
  | some b => { s.emit [.Release b] with pBrush := none }
  | none => s

/-- The call `SafeRelease(&pFactory)`. -/
def SafeRelease_pFactory (s : MainWindow) : MainWindow :=
  match s.pFactory with
  | some f => { s.emit [.Release f] with pFactory := none }
  | none => s

def DiscardGraphicsResources (s : MainWindow) : MainWindow :=
  SafeRelease_pBrush (SafeRelease_pRenderTarget s)

def CalculateLayout (s : MainWindow) : MainWindow :=
  match s.pRenderTarget with
  | some rt =>
    let size := rt.GetSize
    let x := size.width / 2
    let y := size.height / 2
    let radius := min x y - 5
    { s with ellipse := { point := { x := x, y := y }, radiusX := radius, radiusY := radius } }
  | none => s

def CreateGraphicsResources (e : Env) (s : MainWindow) : Except Fault (HRESULT × MainWindow) :=
  match s.pRenderTarget with
  | some _ => .ok (S_OK, s)
  | none =>
    let s := s.emit [.GetClientRect s.m_hwnd]
    let size := SizeU e.clientRect.right e.clientRect.bottom
    match s.pFactory with
    | none => .error { ptr := .pFactory, trace := s.trace }
    | some f =>
      let s := s.emit [.CreateHwndRenderTarget f s.m_hwnd size]
      let rt : ID2D1HwndRenderTarget :=
        { handle := e.renderTargetPtr, size := dipSize e.dpi size }
      let s := { s with pRenderTarget := outPtr e.renderTargetHr rt }
      if SUCCEEDED e.renderTargetHr then
        let s := s.emit [.CreateSolidColorBrush rt.handle (.rgb 1 1 0)]
        let s := { s with pBrush := outPtr e.brushHr e.brushPtr }
        if SUCCEEDED e.brushHr then
          .ok (e.brushHr, CalculateLayout s)
        else
          .ok (e.brushHr, s)
      else
        .ok (e.renderTargetHr, s)

def DrawClockHand (s : MainWindow) (handLength angle strokeWidth : ℚ) :
    Except Fault MainWindow :=
  match s.pRenderTarget with
  | none => .error { ptr := .pRenderTarget, trace := s.trace }
  | some rt =>
    let s := s.emit [.SetTransform rt.handle (.Rotation angle s.ellipse.point)]
    let endPoint : D2D1_POINT_2F :=
      { x := s.ellipse.point.x, y := s.ellipse.point.y - s.ellipse.radiusY * handLength }
    .ok (s.emit [.DrawLine rt.handle s.ellipse.point endPoint s.pBrush strokeWidth])

/-- The expression `360.0f * (wHour / 12.0f) + (360.0f / 12.0f) * (wMinute / 60.0f)`. -/
def hourAngle (t : SYSTEMTIME) : ℚ :=
  360 * ((t.wHour : ℚ) / 12) + (360 / 12) * ((t.wMinute : ℚ) / 60)

/-- The expression `360.0f * (wMinute / 60.0f)`. -/
def minuteAngle (t : SYSTEMTIME) : ℚ := 360 * ((t.wMinute : ℚ) / 60)

/-- The expression `360.0f * (wSecond / 60.0f)`. -/
def secondAngle (t : SYSTEMTIME) : ℚ := 360 * ((t.wSecond : ℚ) / 60)

/-- The text `std::to_wstring(timeElapsed * 10)` of an `unsigned long long`. -/
def counterText (timeElapsed : Nat) : String := toString (timeElapsed * 10 % 2 ^ 64)

/-- The line written to `std::cout` by `OnPaint`. -/
def logLine (t : SYSTEMTIME) (timeElapsed : Nat) : String :=
  "OnPaint() invoked at: " ++ toString t.wHour ++ ":" ++ toString t.wMinute ++ ":"
    ++ toString t.wSecond ++ ":" ++ toString t.wMilliseconds
    ++ ". Counter is: " ++ toString timeElapsed

def OnPaint (e : Env) (s : MainWindow) : Except Fault MainWindow :=
  match CreateGraphicsResources e s with
  | .error f => .error f
  | .ok (hr, s) =>
    if SUCCEEDED hr then
      let s := s.emit [.BeginPaint s.m_hwnd]
      match s.pRenderTarget with
      | none => .error { ptr := .pRenderTarget, trace := s.trace }
      | some rt =>
        let s := s.emit [.BeginDraw rt.handle, .Clear rt.handle .LightSkyBlue]
        match s.pBrush with
        | none => .error { ptr := .pBrush, trace := s.trace }
        | some b =>
          let s := s.emit [.SetColor b .AntiqueWhite, .FillEllipse rt.handle s.ellipse s.pBrush,
            .SetColor b .Black, .DrawEllipse rt.handle s.ellipse s.pBrush 10, .GetLocalTime]
          let timeOfDay := e.localTime
          let s := s.emit [.SetColor b .Black]
          match DrawClockHand s (55 / 100) (hourAngle timeOfDay) 6 with
          | .error f => .error f
          | .ok s =>
          match DrawClockHand s (7 / 10) (minuteAngle timeOfDay) 4 with
          | .error f => .error f
          | .ok s =>
          let s := s.emit [.SetColor b .OrangeRed]
          match DrawClockHand s (9 / 10) (secondAngle timeOfDay) 2 with
          | .error f => .error f
          | .ok s =>
          let s := s.emit [.SetTransform rt.handle .Identity,
            .cout (logLine timeOfDay s.timeElapsed)]
          let size := rt.GetSize
          let counterText := counterText s.timeElapsed
          let s := s.emit [.SetColor b .Black,
            .DrawText rt.handle counterText counterText.length s.pTextFormat
              { left := 0, top := 0, right := size.width, bottom := size.height } s.pBrush,
            .EndDraw rt.handle]
          let hr := e.endDrawHr
          let s := if FAILED hr || hr == D2DERR_RECREATE_TARGET then
            DiscardGraphicsResources s else s
          .ok (s.emit [.EndPaint s.m_hwnd])
    else
      .ok s

def Resize (e : Env) (s : MainWindow) : MainWindow :=
  match s.pRenderTarget with
  | some rt =>
    let s := s.emit [.GetClientRect s.m_hwnd]
    let size := SizeU e.clientRect.right e.clientRect.bottom
    let s := s.emit [.Resize rt.handle size]
    let s := if SUCCEEDED e.resizeHr then
      { s with pRenderTarget := some { rt with size := dipSize e.dpi size } } else s
    let s := CalculateLayout s
    s.emit [.InvalidateRect s.m_hwnd]
  | none => s

def HandleMessage (e : Env) (s : MainWindow) (uMsg : UINT) (wParam : WPARAM) (lParam : LPARAM) :
    Except Fault (LRESULT × MainWindow) :=
  if uMsg = WM_CREATE then
    let s := s.emit [.SetTimer s.m_hwnd s.timerId 10, .D2D1CreateFactory]
    let s := { s with pFactory := outPtr e.factoryHr e.factoryPtr }
    if FAILED e.factoryHr then .ok (-1, s) else
    let s := s.emit [.DWriteCreateFactory]
    let s := { s with pWriteFactory := outPtr e.writeFactoryHr e.writeFactoryPtr }
    if FAILED e.writeFactoryHr then .ok (-1, s) else
    match s.pWriteFactory with
    | none => .error { ptr := .pWriteFactory, trace := s.trace }
    | some wf =>
      let s := s.emit [.CreateTextFormat wf "Verdana" 50]
      let s := { s with pTextFormat := outPtr e.textFormatHr e.textFormatPtr }
      if FAILED e.textFormatHr then .ok (-1, s) else
      match s.pTextFormat with
      | none => .error { ptr := .pTextFormat, trace := s.trace }
      | some tf => .ok (0, s.emit [.SetTextAlignment tf, .SetParagraphAlignment tf])
  else if uMsg = WM_DESTROY then
    let s := s.emit [.KillTimer s.m_hwnd s.timerId]
    let s := DiscardGraphicsResources s
    let s := SafeRelease_pFactory s
    .ok (0, s.emit [.PostQuitMessage 0])
  else if uMsg = WM_PAINT then
    match OnPaint e s with
    | .error f => .error f
    | .ok s => .ok (0, s)
  else if uMsg = WM_SIZE then
    .ok (0, Resize e s)
  else if uMsg = WM_TIMER then
    if wParam = s.timerId then
      let s := { s with timeElapsed := (s.timeElapsed + 1) % 2 ^ 64 }
      match OnPaint e s with
      | .error f => .error f
      | .ok s => .ok (0, s)
    else
      .ok (0, s)
  else
    .ok (e.defWindowProc s.m_hwnd uMsg wParam lParam,
      s.emit [.DefWindowProc s.m_hwnd uMsg wParam lParam])

end MainWindow

/-! ## BaseWindow -/

/-- The structure `lParam` points to when `WM_NCCREATE` arrives. -/
structure CREATESTRUCT where
  /-- The pointer given to `CreateWindowEx` as creation parameter; `0` is `NULL`. -/
  lpCreateParams : Nat

/-- What `BaseWindow<DERIVED_TYPE>` uses of `DERIVED_TYPE`: the virtual
`HandleMessage` and the protected field `m_hwnd`. -/
structure Derived (D ε : Type) where
  HandleMessage : Env → D → UINT → WPARAM → LPARAM → Except ε (LRESULT × D)
  set_m_hwnd : HWND → D → D

/-- The memory `WindowProc` works on: the `GWLP_USERDATA` slot of every window
(`0` is `NULL`) and the `DERIVED_TYPE` object at every address. -/
structure Process (D : Type) where
  userData : HWND → Nat
  object : Nat → D

/-- How `WindowProc` can fault: `pThis->m_hwnd` through a null `pThis`, or inside the
handler. -/
inductive WindowProcFault (ε : Type) where
  | nullThis
  | inHandler (f : ε)

/-- The tail of `WindowProc`: `if (pThis) HandleMessage else DefWindowProc`. -/
def dispatch {D ε : Type} (V : Derived D ε) (e : Env) (p : Process D) (pThis : Nat)
    (hwnd : HWND) (uMsg : UINT) (wParam : WPARAM) (lParam : LPARAM) :
    Except (WindowProcFault ε) (LRESULT × Process D) :=
  if pThis ≠ 0 then
    match V.HandleMessage e (p.object pThis) uMsg wParam lParam with
    | .error f => .error (.inHandler f)
    | .ok (r, d) => .ok (r, { p with object := Function.update p.object pThis d })
  else
    .ok (e.defWindowProc hwnd uMsg wParam lParam, p)

/-- The static `WindowProc`; `createStruct` reads the `CREATESTRUCT` that `lParam`
points to. -/
def WindowProc {D ε : Type} (V : Derived D ε) (createStruct : LPARAM → CREATESTRUCT)
    (e : Env) (p : Process D) (hwnd : HWND) (uMsg : UINT) (wParam : WPARAM) (lParam : LPARAM) :
    Except (WindowProcFault ε) (LRESULT × Process D) :=
  if uMsg = WM_NCCREATE then
    let pCreate := createStruct lParam
    let pThis := pCreate.lpCreateParams
    let p := { p with userData := Function.update p.userData hwnd pThis }
    if pThis = 0 then .error .nullThis else
    let pObj := V.set_m_hwnd hwnd (p.object pThis)
    let p := { p with object := Function.update p.object pThis pObj }
    dispatch V e p pThis hwnd uMsg wParam lParam
  else
    let pThis := p.userData hwnd
    dispatch V e p pThis hwnd uMsg wParam lParam

/-- The instantiation `BaseWindow<MainWindow>`. -/
def MainWindow.derived : Derived MainWindow Fault :=
  { HandleMessage := MainWindow.HandleMessage,
    set_m_hwnd := fun hwnd s => { s with m_hwnd := hwnd } }

/-- A message as `WindowProc` receives it, with what the platform answers while it is
handled. -/
structure Msg where
  env : Env
  uMsg : UINT
  wParam : WPARAM
  lParam : LPARAM

/-- Deliver messages to one window through `WindowProc`, in order; the results are
collected. -/
def deliver {D ε : Type} (V : Derived D ε) (createStruct : LPARAM → CREATESTRUCT)
    (hwnd : HWND) : Process D → List Msg → Except (WindowProcFault ε) (List LRESULT × Process D)
  | p, [] => .ok ([], p)
  | p, m :: ms =>
    match WindowProc V createStruct m.env p hwnd m.uMsg m.wParam m.lParam with
    | .error f => .error f
    | .ok (r, p) =>
      match deliver V createStruct hwnd p ms with
      | .error f => .error f
      | .ok (rs, p) => .ok (r :: rs, p)

/-- Hand messages straight to `HandleMessage` of one object, in order. -/
def handleAll {D ε : Type} (V : Derived D ε) : D → List Msg → Except ε (List LRESULT × D)
  | d, [] => .ok ([], d)
  | d, m :: ms =>
    match V.HandleMessage m.env d m.uMsg m.wParam m.lParam with
    | .error f => .error f
    | .ok (r, d) =>
      match handleAll V d ms with
      | .error f => .error f
      | .ok (rs, d) => .ok (r :: rs, d)

/-! ## Auxiliary definitions for the statements -/

/-- The angle of a call that sets a rotation, if it is one. -/
def Call.rotation? : Call → Option ℚ
  | .SetTransform _ (.Rotation a _) => some a
  | _ => none

/-- The calls a view has issued since its trace was `before`. -/
def MainWindow.since (s : MainWindow) (before : List Call) : List Call :=
  s.trace.drop before.length

/-- The calls of one frame, in the order `OnPaint` issues them from `BeginPaint` to
`EndDraw`, for a view whose render target is `rt` and whose brush is `b`. -/
def MainWindow.frame (t : SYSTEMTIME) (s : MainWindow) (rt : ID2D1HwndRenderTarget)
    (b : Handle) : List Call :=
  let c := s.ellipse.point
  let tip (len : ℚ) : D2D1_POINT_2F := { x := c.x, y := c.y - s.ellipse.radiusY * len }
  [.BeginPaint s.m_hwnd, .BeginDraw rt.handle, .Clear rt.handle .LightSkyBlue,
   .SetColor b .AntiqueWhite, .FillEllipse rt.handle s.ellipse (some b),
   .SetColor b .Black, .DrawEllipse rt.handle s.ellipse (some b) 10, .GetLocalTime,
   .SetColor b .Black,
   .SetTransform rt.handle (.Rotation (MainWindow.hourAngle t) c),
   .DrawLine rt.handle c (tip (55 / 100)) (some b) 6,
   .SetTransform rt.handle (.Rotation (MainWindow.minuteAngle t) c),
   .DrawLine rt.handle c (tip (7 / 10)) (some b) 4,
   .SetColor b .OrangeRed,
   .SetTransform rt.handle (.Rotation (MainWindow.secondAngle t) c),
   .DrawLine rt.handle c (tip (9 / 10)) (some b) 2,
   .SetTransform rt.handle .Identity,
   .cout (MainWindow.logLine t s.timeElapsed),
   .SetColor b .Black,
   .DrawText rt.handle (MainWindow.counterText s.timeElapsed)
     (MainWindow.counterText s.timeElapsed).length s.pTextFormat
     { left := 0, top := 0, right := rt.size.width, bottom := rt.size.height } (some b),
   .EndDraw rt.handle]

/-- The end of `OnPaint`, after `EndDraw` answered `hr`. -/
def MainWindow.present (hr : HRESULT) (s : MainWindow) : MainWindow :=
  let s := if FAILED hr || hr == D2DERR_RECREATE_TARGET then
    MainWindow.DiscardGraphicsResources s else s
  s.emit [.EndPaint s.m_hwnd]

/-- The angles of the rotations set by a list of calls, in order. -/
def rotations (cs : List Call) : List ℚ := cs.filterMap Call.rotation?

/-- The drawing calls among a list of calls, in order. -/
def draws (cs : List Call) : List Call := cs.filter Call.isDraw

/-- The fields no paint touches are the same in `s` and `s'`. -/
def MainWindow.sameCore (s s' : MainWindow) : Prop :=
  s'.pFactory = s.pFactory ∧ s'.pWriteFactory = s.pWriteFactory
  ∧ s'.pTextFormat = s.pTextFormat ∧ s'.timeElapsed = s.timeElapsed
  ∧ s'.timerId = s.timerId ∧ s'.m_hwnd = s.m_hwnd

/-- A paint of this view goes through no null pointer: a factory is there to create a
missing render target, and an existing render target comes with a brush. -/
def MainWindow.canPaint (s : MainWindow) : Prop :=
  (s.pRenderTarget = none → s.pFactory ≠ none) ∧ (s.pRenderTarget ≠ none → s.pBrush ≠ none)

/-- The HRESULT `0x80004005`, read as a signed 32-bit value. -/
def E_FAIL : HRESULT := 0x80004005 - 2 ^ 32

/-- Every platform call succeeds; the client area is 200 by 100 at 96 DPI; the local
time is 06:30:00. -/
def envOk : Env :=
  { clientRect := ⟨0, 0, 200, 100⟩, dpi := 96, localTime := ⟨6, 30, 0, 0⟩,
    factoryHr := S_OK, factoryPtr := 1, writeFactoryHr := S_OK, writeFactoryPtr := 2,
    textFormatHr := S_OK, textFormatPtr := 3, renderTargetHr := S_OK, renderTargetPtr := 4,
    brushHr := S_OK, brushPtr := 5, resizeHr := S_OK, endDrawHr := S_OK,
    defWindowProc := fun _ _ _ _ => 0 }

/-- As `envOk`, but the render target cannot be created. -/
def envTargetFails : Env := { envOk with renderTargetHr := E_FAIL }

/-- As `envOk`, but the brush cannot be created. -/
def envBrushFails : Env := { envOk with brushHr := E_FAIL }

/-- As `envOk`, but `EndDraw` asks for the target to be recreated. -/
def envDeviceLost : Env := { envOk with endDrawHr := D2DERR_RECREATE_TARGET }

/-- A view as `WM_CREATE` leaves it when it succeeds, on window 7. -/
def createdView : MainWindow :=
  { MainWindow.new ⟨⟨0, 0⟩, 0, 0⟩ with
    m_hwnd := 7, pFactory := some 1, pWriteFactory := some 2, pTextFormat := some 3,
    trace := [.SetTimer 7 1 10, .D2D1CreateFactory, .DWriteCreateFactory,
      .CreateTextFormat 2 "Verdana" 50, .SetTextAlignment 3, .SetParagraphAlignment 3] }

/-- The created view when its counter holds the largest `unsigned long long`. -/
def lastTickView : MainWindow := { createdView with timeElapsed := 2 ^ 64 - 1 }

/-- A process in which no window has user data yet; fresh views fill the memory. -/
def freshProcess : Process MainWindow :=
  { userData := fun _ => 0, object := fun _ => MainWindow.new ⟨⟨0, 0⟩, 0, 0⟩ }

/-- Every `lParam` points to a `CREATESTRUCT` whose creation parameter is address 100. -/
def createStructAt100 : LPARAM → CREATESTRUCT := fun _ => { lpCreateParams := 100 }

/-- The created view once it has painted a 200 by 100 client area. -/
def paintedView : MainWindow :=
  { createdView with
    pRenderTarget := some ⟨4, ⟨200, 100⟩⟩, pBrush := some 5,
    ellipse := ⟨⟨100, 50⟩, 45, 45⟩ }

/-- Window creation followed by a paint in which the brush cannot be created. -/
def brushFailureRun : List Msg :=
  [⟨envOk, WM_NCCREATE, 0, 0⟩, ⟨envOk, WM_CREATE, 0, 0⟩, ⟨envBrushFails, WM_PAINT, 0, 0⟩]

/-- The client area is 200 by 100 pixels at 96 DPI, where a DIP is a pixel. -/
def Env.area200x100 (e : Env) : Prop :=
  e.clientRect.right = 200 ∧ e.clientRect.bottom = 100 ∧ e.dpi = 96

/-- The ellipse of a 200 by 100 target. -/
def ellipse200x100 : D2D1_ELLIPSE := ⟨⟨100, 50⟩, 45, 45⟩

/-- Either no device-dependent resource exists, or both do, for a 200 by 100 target whose
layout has been calculated. -/
def MainWindow.laidOut (s : MainWindow) : Prop :=
  (s.pRenderTarget = none ∧ s.pBrush = none)
  ∨ ∃ rt b, s.pRenderTarget = some rt ∧ rt.size = ⟨200, 100⟩ ∧ s.pBrush = some b
      ∧ s.ellipse = ellipse200x100

/-- The view `s` once `WM_CREATE` has succeeded on it. -/
def MainWindow.created (e : Env) (s : MainWindow) : MainWindow :=
  { s with
    pFactory := some e.factoryPtr, pWriteFactory := some e.writeFactoryPtr,
    pTextFormat := some e.textFormatPtr,
    trace := s.trace ++ [.SetTimer s.m_hwnd s.timerId 10, .D2D1CreateFactory,
      .DWriteCreateFactory, .CreateTextFormat e.writeFactoryPtr "Verdana" 50,
      .SetTextAlignment e.textFormatPtr, .SetParagraphAlignment e.textFormatPtr] }

/-- Five ticks: in the second the render target cannot be created, in the third the
device is lost. -/
def scenarioTicks : List Env := [envOk, envTargetFails, envDeviceLost, envOk, envOk]

/-- A timer tick with the id of the view. -/
def tickMsg (e : Env) : Msg := ⟨e, WM_TIMER, 1, 0⟩

/-- The messages of the scenario before the final paint. -/
def scenarioMsgs (eCreate eSize : Env) (ticks : List Env) : List Msg :=
  [⟨eCreate, WM_CREATE, 0, 0⟩, ⟨eSize, WM_SIZE, 0, 0⟩] ++ ticks.map tickMsg

/-- The scenario: `WM_CREATE` succeeds; from `WM_SIZE` on the client area is 200 by 100;
there are five ticks, in none of which the brush creation fails; the final paint is at
06:30:00 and its creations succeed. -/
def scenario (eCreate eSize : Env) (ticks : List Env) (ePaint : Env) : Prop :=
  SUCCEEDED eCreate.factoryHr = true ∧ SUCCEEDED eCreate.writeFactoryHr = true
  ∧ SUCCEEDED eCreate.textFormatHr = true
  ∧ eSize.area200x100
  ∧ ticks.length = 5
  ∧ (∀ e ∈ ticks, e.area200x100
      ∧ (SUCCEEDED e.renderTargetHr = true → SUCCEEDED e.brushHr = true))
  ∧ ePaint.area200x100
  ∧ ePaint.localTime.wHour = 6 ∧ ePaint.localTime.wMinute = 30
  ∧ ePaint.localTime.wSecond = 0
  ∧ SUCCEEDED ePaint.renderTargetHr = true ∧ SUCCEEDED ePaint.brushHr = true

/-- A view with a render target of size 0 by 0. -/
def degenerateView : MainWindow :=
  { MainWindow.new ⟨⟨0, 0⟩, 0, 0⟩ with
    pFactory := some 1, pRenderTarget := some ⟨2, ⟨0, 0⟩⟩, pBrush := some 3 }

/-! ## Lemmas -/

open MainWindow

theorem min_eq_min (a b : ℚ) : min a b = Min.min a b := by
  unfold min
  split_ifs with h
  · exact (min_eq_left h.le).symm
  · exact (min_eq_right (not_lt.mp h)).symm

theorem CreateGraphicsResources_some (e : Env) (s : MainWindow) (rt : ID2D1HwndRenderTarget)
    (h : s.pRenderTarget = some rt) : CreateGraphicsResources e s = .ok (S_OK, s) := by
  unfold CreateGraphicsResources
  rw [h]

theorem OnPaint_frame (e : Env) (s s1 : MainWindow) (hr : HRESULT)
    (rt : ID2D1HwndRenderTarget) (b : Handle)
    (hc : CreateGraphicsResources e s = .ok (hr, s1)) (hs : SUCCEEDED hr = true)
    (hrt : s1.pRenderTarget = some rt) (hb : s1.pBrush = some b) :
    OnPaint e s = .ok (present e.endDrawHr (s1.emit (frame e.localTime s1 rt b))) := by
  unfold OnPaint
  rw [hc]
  simp [hs, emit, hrt, hb, DrawClockHand, frame, present, ID2D1HwndRenderTarget.GetSize]

theorem CreateGraphicsResources_null_factory (e : Env) (s : MainWindow)
    (h : s.pRenderTarget = none) (hf : s.pFactory = none) :
    CreateGraphicsResources e s
      = .error { ptr := .pFactory, trace := s.trace ++ [.GetClientRect s.m_hwnd] } := by
  unfold CreateGraphicsResources
  simp [h, hf, emit]

theorem CreateGraphicsResources_target_fails (e : Env) (s : MainWindow) (f : Handle)
    (h : s.pRenderTarget = none) (hf : s.pFactory = some f)
    (hrt : SUCCEEDED e.renderTargetHr = false) :
    CreateGraphicsResources e s = .ok (e.renderTargetHr,
      { s with trace := s.trace ++ [.GetClientRect s.m_hwnd,
          .CreateHwndRenderTarget f s.m_hwnd (SizeU e.clientRect.right e.clientRect.bottom)] }) := by
  unfold CreateGraphicsResources
  simp [h, hf, emit, hrt, outPtr]

theorem CreateGraphicsResources_brush_fails (e : Env) (s : MainWindow) (f : Handle)
    (h : s.pRenderTarget = none) (hf : s.pFactory = some f)
    (hrt : SUCCEEDED e.renderTargetHr = true) (hb : SUCCEEDED e.brushHr = false) :
    CreateGraphicsResources e s = .ok (e.brushHr,
      { s with
        pRenderTarget := some
          ⟨e.renderTargetPtr, dipSize e.dpi (SizeU e.clientRect.right e.clientRect.bottom)⟩,
        pBrush := none,
        trace := s.trace ++ [.GetClientRect s.m_hwnd,
          .CreateHwndRenderTarget f s.m_hwnd (SizeU e.clientRect.right e.clientRect.bottom),
          .CreateSolidColorBrush e.renderTargetPtr (.rgb 1 1 0)] }) := by
  unfold CreateGraphicsResources
  simp [h, hf, emit, hrt, hb, outPtr]

theorem CreateGraphicsResources_created (e : Env) (s : MainWindow) (f : Handle)
    (h : s.pRenderTarget = none) (hf : s.pFactory = some f)
    (hrt : SUCCEEDED e.renderTargetHr = true) (hb : SUCCEEDED e.brushHr = true) :
    CreateGraphicsResources e s = .ok (e.brushHr,
      CalculateLayout { s with
        pRenderTarget := some
          ⟨e.renderTargetPtr, dipSize e.dpi (SizeU e.clientRect.right e.clientRect.bottom)⟩,
        pBrush := some e.brushPtr,
        trace := s.trace ++ [.GetClientRect s.m_hwnd,
          .CreateHwndRenderTarget f s.m_hwnd (SizeU e.clientRect.right e.clientRect.bottom),
          .CreateSolidColorBrush e.renderTargetPtr (.rgb 1 1 0)] }) := by
  unfold CreateGraphicsResources
  simp [h, hf, emit, hrt, hb, outPtr]

theorem CalculateLayout_some (s : MainWindow) (rt : ID2D1HwndRenderTarget)
    (hrt : s.pRenderTarget = some rt) :
    CalculateLayout s = { s with ellipse :=
      { point := { x := rt.size.width / 2, y := rt.size.height / 2 },
        radiusX := Min.min rt.size.width rt.size.height / 2 - 5,
        radiusY := Min.min rt.size.width rt.size.height / 2 - 5 } } := by
  have hmin : min (rt.size.width / 2) (rt.size.height / 2)
      = Min.min rt.size.width rt.size.height / 2 := by
    rw [min_eq_min]
    rcases le_total rt.size.width rt.size.height with hle | hle
    · rw [min_eq_left hle, min_eq_left (by linarith)]
    · rw [min_eq_right hle, min_eq_right (by linarith)]
  unfold CalculateLayout
  rw [hrt]
  simp only [ID2D1HwndRenderTarget.GetSize, hmin]

/-! ## C1: the layout -/

/-- C1, counterexample: with a render target of size 0 by 0, `CalculateLayout` sets the
radii to -5, whereas the clamped value `max 0 (min 0 0 / 2 - 5)` is 0. -/
theorem CalculateLayout_not_clamped :
    degenerateView.pRenderTarget = some ⟨2, ⟨0, 0⟩⟩
    ∧ (CalculateLayout degenerateView).ellipse.radiusX = -5
    ∧ (CalculateLayout degenerateView).ellipse.radiusY = -5
    ∧ max (0 : ℚ) (Min.min (0 : ℚ) 0 / 2 - 5) = 0 := by
  refine ⟨rfl, ?_, ?_, ?_⟩
  · simp [CalculateLayout, degenerateView, MainWindow.new, ID2D1HwndRenderTarget.GetSize, min]
  · simp [CalculateLayout, degenerateView, MainWindow.new, ID2D1HwndRenderTarget.GetSize, min]
  · norm_num

/-- C1, amended: for every client-area size (w,h), in particular with w,h >= 0, when a
render target of that size exists, `CalculateLayout` changes nothing but the ellipse, sets
its center to (w/2, h/2) and both radii to min(w,h)/2 - 5, without clamping: the radii are
negative exactly when min(w,h) < 10. -/
theorem CalculateLayout_ellipse (s : MainWindow) (rt : ID2D1HwndRenderTarget) (w h : ℚ)
    (hrt : s.pRenderTarget = some rt) (hsize : rt.GetSize = ⟨w, h⟩) :
    CalculateLayout s = { s with ellipse :=
      { point := { x := w / 2, y := h / 2 },
        radiusX := Min.min w h / 2 - 5, radiusY := Min.min w h / 2 - 5 } }
    ∧ ((CalculateLayout s).ellipse.radiusX < 0 ↔ Min.min w h < 10) := by
  have hcalc : CalculateLayout s = { s with ellipse :=
      { point := { x := w / 2, y := h / 2 },
        radiusX := Min.min w h / 2 - 5, radiusY := Min.min w h / 2 - 5 } } := by
    have hs : rt.size = ⟨w, h⟩ := hsize
    rw [CalculateLayout_some s rt hrt, hs]
  refine ⟨hcalc, ?_⟩
  rw [hcalc]
  constructor
  · intro hneg
    simp only at hneg
    linarith
  · intro hlt
    simp only
    linarith

/-- Witness of `CalculateLayout_ellipse` at the 200 by 100 target. -/
theorem CalculateLayout_ellipse_witness :
    (CalculateLayout { degenerateView with pRenderTarget := some ⟨2, ⟨200, 100⟩⟩ }).ellipse
      = { point := { x := 100, y := 50 }, radiusX := 45, radiusY := 45 } := by
  have h := (CalculateLayout_ellipse
    { degenerateView with pRenderTarget := some ⟨2, ⟨200, 100⟩⟩ } ⟨2, ⟨200, 100⟩⟩ 200 100
    rfl rfl).1
  rw [h]
  norm_num

theorem since_append (s : MainWindow) (t cs : List Call) (h : s.trace = t ++ cs) :
    s.since t = cs := by
  simp [since, h]

/-- The trace after `present`: the frame is followed by the releases of a discard, if
any, and by `EndPaint`. -/
theorem present_trace (hr : HRESULT) (s : MainWindow) :
    ∃ rel : List Call, (present hr s).trace = s.trace ++ rel ++ [.EndPaint s.m_hwnd]
      ∧ ∀ c ∈ rel, ∃ h, c = .Release h := by
  unfold present
  by_cases hd : (FAILED hr || hr == D2DERR_RECREATE_TARGET) = true
  · rcases hrt : s.pRenderTarget with _ | rt <;> rcases hb : s.pBrush with _ | b
    · exact ⟨[], by simp [hd, DiscardGraphicsResources, SafeRelease_pRenderTarget,
        SafeRelease_pBrush, hrt, hb, emit], by simp⟩
    · exact ⟨[.Release b], by simp [hd, DiscardGraphicsResources, SafeRelease_pRenderTarget,
        SafeRelease_pBrush, hrt, hb, emit], by simp⟩
    · exact ⟨[.Release rt.handle], by simp [hd, DiscardGraphicsResources,
        SafeRelease_pRenderTarget, SafeRelease_pBrush, hrt, hb, emit], by simp⟩
    · exact ⟨[.Release rt.handle, .Release b], by simp [hd, DiscardGraphicsResources,
        SafeRelease_pRenderTarget, SafeRelease_pBrush, hrt, hb, emit], by simp⟩
  · exact ⟨[], by simp [hd, emit], by simp⟩

theorem rotations_append (as bs : List Call) : rotations (as ++ bs) = rotations as ++ rotations bs := by
  simp [rotations]

theorem rotations_releases (rel : List Call) (h : ∀ c ∈ rel, ∃ x, c = .Release x) :
    rotations rel = [] := by
  unfold rotations
  rw [List.filterMap_eq_nil_iff]
  intro c hc
  obtain ⟨x, rfl⟩ := h c hc
  rfl

theorem rotations_frame (t : SYSTEMTIME) (s : MainWindow) (rt : ID2D1HwndRenderTarget)
    (b : Handle) :
    rotations (frame t s rt b) = [hourAngle t, minuteAngle t, secondAngle t] := by
  simp [rotations, frame, Call.rotation?]

/-! ### The six ways a paint can go -/

theorem OnPaint_ready (e : Env) (s : MainWindow) (rt : ID2D1HwndRenderTarget) (b : Handle)
    (hrt : s.pRenderTarget = some rt) (hb : s.pBrush = some b) :
    OnPaint e s = .ok (present e.endDrawHr (s.emit (frame e.localTime s rt b))) :=
  OnPaint_frame e s s S_OK rt b (CreateGraphicsResources_some e s rt hrt) rfl hrt hb

theorem OnPaint_null_brush (e : Env) (s : MainWindow) (rt : ID2D1HwndRenderTarget)
    (hrt : s.pRenderTarget = some rt) (hb : s.pBrush = none) :
    OnPaint e s = .error { ptr := .pBrush, trace := s.trace ++
      [.BeginPaint s.m_hwnd, .BeginDraw rt.handle, .Clear rt.handle .LightSkyBlue] } := by
  unfold OnPaint
  rw [CreateGraphicsResources_some e s rt hrt]
  simp [SUCCEEDED, S_OK, emit, hrt, hb]

theorem OnPaint_null_factory (e : Env) (s : MainWindow)
    (hrt : s.pRenderTarget = none) (hf : s.pFactory = none) :
    OnPaint e s = .error { ptr := .pFactory, trace := s.trace ++ [.GetClientRect s.m_hwnd] } := by
  unfold OnPaint
  rw [CreateGraphicsResources_null_factory e s hrt hf]

theorem OnPaint_target_fails (e : Env) (s : MainWindow) (f : Handle)
    (h : s.pRenderTarget = none) (hf : s.pFactory = some f)
    (hrt : SUCCEEDED e.renderTargetHr = false) :
    OnPaint e s = .ok
      { s with trace := s.trace ++ [.GetClientRect s.m_hwnd,
          .CreateHwndRenderTarget f s.m_hwnd (SizeU e.clientRect.right e.clientRect.bottom)] } := by
  unfold OnPaint
  rw [CreateGraphicsResources_target_fails e s f h hf hrt]
  simp [hrt]

theorem OnPaint_brush_fails (e : Env) (s : MainWindow) (f : Handle)
    (h : s.pRenderTarget = none) (hf : s.pFactory = some f)
    (hrt : SUCCEEDED e.renderTargetHr = true) (hb : SUCCEEDED e.brushHr = false) :
    OnPaint e s = .ok
      { s with
        pRenderTarget := some
          ⟨e.renderTargetPtr, dipSize e.dpi (SizeU e.clientRect.right e.clientRect.bottom)⟩,
        pBrush := none,
        trace := s.trace ++ [.GetClientRect s.m_hwnd,
          .CreateHwndRenderTarget f s.m_hwnd (SizeU e.clientRect.right e.clientRect.bottom),
          .CreateSolidColorBrush e.renderTargetPtr (.rgb 1 1 0)] } := by
  unfold OnPaint
  rw [CreateGraphicsResources_brush_fails e s f h hf hrt hb]
  simp [hb]

theorem CalculateLayout_fields (s : MainWindow) :
    (CalculateLayout s).pRenderTarget = s.pRenderTarget
    ∧ (CalculateLayout s).pBrush = s.pBrush
    ∧ (CalculateLayout s).pFactory = s.pFactory
    ∧ (CalculateLayout s).pWriteFactory = s.pWriteFactory
    ∧ (CalculateLayout s).pTextFormat = s.pTextFormat
    ∧ (CalculateLayout s).timeElapsed = s.timeElapsed
    ∧ (CalculateLayout s).timerId = s.timerId
    ∧ (CalculateLayout s).m_hwnd = s.m_hwnd
    ∧ (CalculateLayout s).trace = s.trace := by
  unfold CalculateLayout
  split <;> simp_all

theorem OnPaint_created (e : Env) (s : MainWindow) (f : Handle)
    (h : s.pRenderTarget = none) (hf : s.pFactory = some f)
    (hrt : SUCCEEDED e.renderTargetHr = true) (hb : SUCCEEDED e.brushHr = true) :
    ∃ s1 : MainWindow,
      s1 = CalculateLayout { s with
        pRenderTarget := some
          ⟨e.renderTargetPtr, dipSize e.dpi (SizeU e.clientRect.right e.clientRect.bottom)⟩,
        pBrush := some e.brushPtr,
        trace := s.trace ++ [.GetClientRect s.m_hwnd,
          .CreateHwndRenderTarget f s.m_hwnd (SizeU e.clientRect.right e.clientRect.bottom),
          .CreateSolidColorBrush e.renderTargetPtr (.rgb 1 1 0)] }
      ∧ CreateGraphicsResources e s = .ok (e.brushHr, s1)
      ∧ OnPaint e s = .ok (present e.endDrawHr (s1.emit (frame e.localTime s1
          ⟨e.renderTargetPtr, dipSize e.dpi (SizeU e.clientRect.right e.clientRect.bottom)⟩
          e.brushPtr))) := by
  refine ⟨_, rfl, CreateGraphicsResources_created e s f h hf hrt hb, ?_⟩
  refine OnPaint_frame e s _ e.brushHr _ _ (CreateGraphicsResources_created e s f h hf hrt hb)
    hb ?_ ?_
  · rw [(CalculateLayout_fields _).1]
  · rw [(CalculateLayout_fields _).2.1]

theorem rotations_painted (e : Env) (s1 : MainWindow) (t : List Call) (pre : List Call)
    (rt : ID2D1HwndRenderTarget) (b : Handle) (h1 : s1.trace = t ++ pre)
    (hpre : rotations pre = []) :
    rotations ((present e.endDrawHr (s1.emit (frame e.localTime s1 rt b))).since t)
      = [hourAngle e.localTime, minuteAngle e.localTime, secondAngle e.localTime] := by
  obtain ⟨rel, htr, hrel⟩ := present_trace e.endDrawHr (s1.emit (frame e.localTime s1 rt b))
  have : (present e.endDrawHr (s1.emit (frame e.localTime s1 rt b))).trace
      = t ++ (pre ++ frame e.localTime s1 rt b ++ rel
          ++ [.EndPaint (s1.emit (frame e.localTime s1 rt b)).m_hwnd]) := by
    rw [htr]
    simp [emit, h1]
  rw [since_append _ _ _ this]
  simp [rotations_append, hpre, rotations_frame, rotations_releases rel hrel]
  simp [rotations, Call.rotation?]

/-! ### What a paint leaves alone -/

theorem sameCore_refl (s : MainWindow) : s.sameCore s := by
  simp [sameCore]

theorem sameCore_trans (a b c : MainWindow) (h1 : a.sameCore b) (h2 : b.sameCore c) :
    a.sameCore c := by
  unfold sameCore at *
  obtain ⟨a1, a2, a3, a4, a5, a6⟩ := h1
  obtain ⟨b1, b2, b3, b4, b5, b6⟩ := h2
  exact ⟨b1.trans a1, b2.trans a2, b3.trans a3, b4.trans a4, b5.trans a5, b6.trans a6⟩

theorem DiscardGraphicsResources_fields (s : MainWindow) :
    (DiscardGraphicsResources s).pRenderTarget = none
    ∧ (DiscardGraphicsResources s).pBrush = none
    ∧ (DiscardGraphicsResources s).ellipse = s.ellipse
    ∧ s.sameCore (DiscardGraphicsResources s) := by
  unfold DiscardGraphicsResources SafeRelease_pBrush SafeRelease_pRenderTarget sameCore
  rcases hrt : s.pRenderTarget with _ | rt <;> rcases hb : s.pBrush with _ | b <;>
    simp [hrt, hb, emit]

theorem present_fields (hr : HRESULT) (s : MainWindow) :
    (present hr s).ellipse = s.ellipse ∧ s.sameCore (present hr s)
    ∧ ((FAILED hr || hr == D2DERR_RECREATE_TARGET) = true →
        (present hr s).pRenderTarget = none ∧ (present hr s).pBrush = none)
    ∧ ((FAILED hr || hr == D2DERR_RECREATE_TARGET) = false →
        (present hr s).pRenderTarget = s.pRenderTarget ∧ (present hr s).pBrush = s.pBrush) := by
  obtain ⟨d1, d2, d3, d4⟩ := DiscardGraphicsResources_fields s
  unfold present
  by_cases hd : (FAILED hr || hr == D2DERR_RECREATE_TARGET) = true
  · simp only [hd, if_true, emit]
    exact ⟨d3, d4, fun _ => ⟨d1, d2⟩, fun h => by simp at h⟩
  · simp only [hd, emit]
    simp [sameCore]

theorem emit_fields (s : MainWindow) (cs : List Call) :
    (s.emit cs).ellipse = s.ellipse ∧ s.sameCore (s.emit cs)
    ∧ (s.emit cs).pRenderTarget = s.pRenderTarget ∧ (s.emit cs).pBrush = s.pBrush := by
  simp [emit, sameCore]

theorem OnPaint_sameCore (e : Env) (s s' : MainWindow) (h : OnPaint e s = .ok s') :
    s.sameCore s' := by
  rcases hrt : s.pRenderTarget with _ | rt
  · rcases hf : s.pFactory with _ | f
    · rw [OnPaint_null_factory e s hrt hf] at h
      cases h
    · rcases ht : SUCCEEDED e.renderTargetHr with _ | _
      · rw [OnPaint_target_fails e s f hrt hf ht] at h
        cases h
        simp [sameCore]
      · rcases hb : SUCCEEDED e.brushHr with _ | _
        · rw [OnPaint_brush_fails e s f hrt hf ht hb] at h
          cases h
          simp [sameCore]
        · obtain ⟨s1, hs1, -, hp⟩ := OnPaint_created e s f hrt hf ht hb
          rw [hp] at h
          cases h
          have hc : s.sameCore s1 := by
            obtain ⟨-, -, c3, c4, c5, c6, c7, c8, -⟩ := CalculateLayout_fields
              { s with
                pRenderTarget := some ⟨e.renderTargetPtr,
                  dipSize e.dpi (SizeU e.clientRect.right e.clientRect.bottom)⟩,
                pBrush := some e.brushPtr,
                trace := s.trace ++ [.GetClientRect s.m_hwnd,
                  .CreateHwndRenderTarget f s.m_hwnd
                    (SizeU e.clientRect.right e.clientRect.bottom),
                  .CreateSolidColorBrush e.renderTargetPtr (.rgb 1 1 0)] }
            rw [hs1]
            exact ⟨c3, c4, c5, c6, c7, c8⟩
          exact sameCore_trans _ _ _ hc (sameCore_trans _ _ _ (emit_fields _ _).2.1
            (present_fields _ _).2.1)
  · rcases hb : s.pBrush with _ | b
    · rw [OnPaint_null_brush e s rt hrt hb] at h
      cases h
    · rw [OnPaint_ready e s rt b hrt hb] at h
      cases h
      exact sameCore_trans _ _ _ (emit_fields _ _).2.1 (present_fields _ _).2.1

theorem OnPaint_ok_iff (e : Env) (s : MainWindow) :
    (∃ s', OnPaint e s = .ok s') ↔ s.canPaint := by
  unfold canPaint
  rcases hrt : s.pRenderTarget with _ | rt
  · rcases hf : s.pFactory with _ | f
    · rw [OnPaint_null_factory e s hrt hf]
      simp
    · rcases ht : SUCCEEDED e.renderTargetHr with _ | _
      · rw [OnPaint_target_fails e s f hrt hf ht]
        simp
      · rcases hb : SUCCEEDED e.brushHr with _ | _
        · rw [OnPaint_brush_fails e s f hrt hf ht hb]
          simp
        · obtain ⟨s1, -, -, hp⟩ := OnPaint_created e s f hrt hf ht hb
          rw [hp]
          simp
  · rcases hb : s.pBrush with _ | b
    · rw [OnPaint_null_brush e s rt hrt hb]
      simp
    · rw [OnPaint_ready e s rt b hrt hb]
      simp

theorem HandleMessage_WM_TIMER (e : Env) (s : MainWindow) (wParam : WPARAM)
    (lParam : LPARAM) :
    HandleMessage e s WM_TIMER wParam lParam
      = if wParam = s.timerId then
          (OnPaint e { s with timeElapsed := (s.timeElapsed + 1) % 2 ^ 64 }).map
            (fun s' => ((0 : LRESULT), s'))
        else .ok (0, s) := by
  unfold HandleMessage
  simp only [WM_TIMER, WM_CREATE, WM_DESTROY, WM_PAINT, WM_SIZE]
  norm_num
  split_ifs
  · cases OnPaint e { s with timeElapsed := (s.timeElapsed + 1) % 2 ^ 64 } <;> rfl
  · rfl

/-! ## C3: the timer -/

/-- C3, counterexample: at `timeElapsed = 2^64 - 1` a matching tick is handled, returns 0
and leaves `timeElapsed = 0`, which is not greater than before. -/
theorem WM_TIMER_wraps :
    lastTickView.timeElapsed = 2 ^ 64 - 1
    ∧ ∃ s', HandleMessage envTargetFails lastTickView WM_TIMER lastTickView.timerId 0
        = .ok (0, s')
      ∧ s'.timeElapsed = 0 ∧ ¬ lastTickView.timeElapsed < s'.timeElapsed := by
  refine ⟨rfl, ?_⟩
  rw [HandleMessage_WM_TIMER, if_pos rfl,
    OnPaint_target_fails envTargetFails _ 1 rfl rfl (by decide)]
  exact ⟨_, rfl, by simp [lastTickView], by simp [lastTickView]⟩

/-- C3, amended: for every view state and every `WM_TIMER` message: if wParam differs from
timerId, the handler returns 0 and leaves the view as it was (no call is issued, so no
repaint); if wParam equals timerId, timeElapsed becomes (timeElapsed + 1) mod 2^64, which is
timeElapsed + 1 unless timeElapsed was 2^64 - 1, and `OnPaint` runs on that view; the
handler then returns 0 with that counter value whenever the paint completes, which it
does when the view can paint without going through a null pointer. -/
theorem WM_TIMER_tick (e : Env) (s : MainWindow) (wParam : WPARAM) (lParam : LPARAM) :
    (wParam ≠ s.timerId → HandleMessage e s WM_TIMER wParam lParam = .ok (0, s))
    ∧ (wParam = s.timerId →
        HandleMessage e s WM_TIMER wParam lParam
          = (OnPaint e { s with timeElapsed := (s.timeElapsed + 1) % 2 ^ 64 }).map
              (fun s' => ((0 : LRESULT), s'))
        ∧ (∀ r s', HandleMessage e s WM_TIMER wParam lParam = .ok (r, s') →
            r = 0 ∧ s'.timeElapsed = (s.timeElapsed + 1) % 2 ^ 64
            ∧ (s.timeElapsed + 1 < 2 ^ 64 → s'.timeElapsed = s.timeElapsed + 1))
        ∧ (s.canPaint → ∃ s', HandleMessage e s WM_TIMER wParam lParam = .ok (0, s'))) := by
  have hmsg := HandleMessage_WM_TIMER e s wParam lParam
  refine ⟨fun hne => ?_, fun heq => ?_⟩
  · rw [hmsg, if_neg hne]
  · rw [hmsg, if_pos heq]
    refine ⟨rfl, ?_, ?_⟩
    · intro r s' h
      rcases hp : OnPaint e { s with timeElapsed := (s.timeElapsed + 1) % 2 ^ 64 }
        with f | s2
      · rw [hp] at h
        cases h
      · rw [hp] at h
        cases h
        have hc := (OnPaint_sameCore e _ _ hp).2.2.2.1
        simp only at hc
        refine ⟨rfl, hc, fun hlt => ?_⟩
        rw [hc, Nat.mod_eq_of_lt hlt]
    · intro hc
      have hcp : ({ s with timeElapsed := (s.timeElapsed + 1) % 2 ^ 64 } : MainWindow).canPaint :=
        hc
      obtain ⟨s', h⟩ := (OnPaint_ok_iff e _).mpr hcp
      exact ⟨s', by rw [h]; rfl⟩

/-- Witness of `WM_TIMER_tick`: a tick with another id leaves the created view alone, and
a matching tick on it is handled and counts 1. -/
theorem WM_TIMER_tick_witness :
    HandleMessage envOk createdView WM_TIMER 2 0 = .ok (0, createdView)
    ∧ ∃ s', HandleMessage envOk createdView WM_TIMER 1 0 = .ok (0, s') ∧ s'.timeElapsed = 1 := by
  refine ⟨(WM_TIMER_tick envOk createdView 2 0).1 (by decide), ?_⟩
  obtain ⟨-, h2, h3⟩ := (WM_TIMER_tick envOk createdView 1 0).2 rfl
  obtain ⟨s', hs'⟩ := h3 ⟨fun _ => by simp [createdView], fun h => absurd rfl h⟩
  exact ⟨s', hs', (h2 0 s' hs').2.2 (by decide)⟩

/-! ## C4: the window procedure -/

theorem WindowProc_forward {D ε : Type} (V : Derived D ε) (cs : LPARAM → CREATESTRUCT)
    (e : Env) (p : Process D) (hwnd : HWND) (uMsg : UINT) (wParam : WPARAM) (lParam : LPARAM)
    (inst : Nat) (hi : inst ≠ 0) (hslot : p.userData hwnd = inst) (hm : uMsg ≠ WM_NCCREATE) :
    WindowProc V cs e p hwnd uMsg wParam lParam
      = match V.HandleMessage e (p.object inst) uMsg wParam lParam with
        | .error f => .error (.inHandler f)
        | .ok (r, d) => .ok (r, { p with object := Function.update p.object inst d }) := by
  unfold WindowProc dispatch
  simp only [if_neg hm, hslot, ne_eq, hi, not_false_eq_true, if_true]

theorem deliver_forward {D ε : Type} (V : Derived D ε) (cs : LPARAM → CREATESTRUCT)
    (hwnd : HWND) (inst : Nat) (hi : inst ≠ 0) (msgs : List Msg)
    (hm : ∀ m ∈ msgs, m.uMsg ≠ WM_NCCREATE) :
    ∀ p : Process D, p.userData hwnd = inst →
      deliver V cs hwnd p msgs
        = match handleAll V (p.object inst) msgs with
          | .error f => .error (.inHandler f)
          | .ok (rs, d) => .ok (rs, { p with object := Function.update p.object inst d }) := by
  induction msgs with
  | nil =>
    intro p _
    simp [deliver, handleAll]
  | cons m ms ih =>
    intro p hslot
    have hm1 : m.uMsg ≠ WM_NCCREATE := hm m (List.mem_cons_self _ _)
    have hms : ∀ x ∈ ms, x.uMsg ≠ WM_NCCREATE := fun x hx => hm x (List.mem_cons_of_mem _ hx)
    unfold deliver handleAll
    rw [WindowProc_forward V cs m.env p hwnd m.uMsg m.wParam m.lParam inst hi hslot hm1]
    rcases V.HandleMessage m.env (p.object inst) m.uMsg m.wParam m.lParam with f | ⟨r, d⟩
    · rfl
    · simp only
      rw [ih hms { p with object := Function.update p.object inst d } hslot]
      simp only [Function.update_same]
      rcases handleAll V d ms with f | ⟨rs, d2⟩
      · rfl
      · simp

/-- C4: with the user-data slot as explicit state, for every derived class: (1) a message
other than `WM_NCCREATE` that arrives while the slot of its window is null gets the result
of `DefWindowProc` and changes nothing, whatever the handler is, so no `HandleMessage`
runs; (2) on `WM_NCCREATE` the creation parameter is stored in the slot, the `m_hwnd` of
that instance is set to the window handle and the message is forwarded to its
`HandleMessage`; (3) every later message is forwarded with the same (uMsg, wParam, lParam)
to `HandleMessage` of the instance in the slot, whose result is returned; (4) so any run of
later messages is the same run of `HandleMessage` calls on that one instance, the slot
staying as it was; (5) for `MainWindow`, setting `m_hwnd` changes that field only. -/
theorem WindowProc_dispatch {D ε : Type} (V : Derived D ε) (cs : LPARAM → CREATESTRUCT)
    (e : Env) (p : Process D) (hwnd : HWND) (uMsg : UINT) (wParam : WPARAM)
    (lParam : LPARAM) :
    (uMsg ≠ WM_NCCREATE → p.userData hwnd = 0 →
      WindowProc V cs e p hwnd uMsg wParam lParam
        = .ok (e.defWindowProc hwnd uMsg wParam lParam, p))
    ∧ (∀ inst : Nat, inst ≠ 0 → (cs lParam).lpCreateParams = inst →
        WindowProc V cs e p hwnd WM_NCCREATE wParam lParam
          = match V.HandleMessage e (V.set_m_hwnd hwnd (p.object inst)) WM_NCCREATE
              wParam lParam with
            | .error f => .error (.inHandler f)
            | .ok (r, d) => .ok (r, { userData := Function.update p.userData hwnd inst,
                                      object := Function.update p.object inst d }))
    ∧ (∀ inst : Nat, inst ≠ 0 → p.userData hwnd = inst → uMsg ≠ WM_NCCREATE →
        WindowProc V cs e p hwnd uMsg wParam lParam
          = match V.HandleMessage e (p.object inst) uMsg wParam lParam with
            | .error f => .error (.inHandler f)
            | .ok (r, d) => .ok (r, { p with object := Function.update p.object inst d }))
    ∧ (∀ (inst : Nat) (msgs : List Msg), inst ≠ 0 → p.userData hwnd = inst →
        (∀ m ∈ msgs, m.uMsg ≠ WM_NCCREATE) →
        deliver V cs hwnd p msgs
          = match handleAll V (p.object inst) msgs with
            | .error f => .error (.inHandler f)
            | .ok (rs, d) => .ok (rs, { p with object := Function.update p.object inst d }))
    ∧ (∀ s : MainWindow, MainWindow.derived.set_m_hwnd hwnd s = { s with m_hwnd := hwnd }) := by
  refine ⟨?_, ?_, ?_, ?_, fun _ => rfl⟩
  · intro hm hslot
    unfold WindowProc dispatch
    simp [hm, hslot]
  · intro inst hi hcs
    unfold WindowProc dispatch
    simp only [if_true, hcs, if_neg hi, ne_eq, hi, not_false_eq_true, Function.update_same]
    rcases V.HandleMessage e (V.set_m_hwnd hwnd (p.object inst)) WM_NCCREATE wParam lParam
      with f | ⟨r, d⟩
    · rfl
    · simp
  · intro inst hi hslot hm
    exact WindowProc_forward V cs e p hwnd uMsg wParam lParam inst hi hslot hm
  · intro inst msgs hi hslot hm
    exact deliver_forward V cs hwnd inst hi msgs hm p hslot

/-- Witness of `WindowProc_dispatch` on window 7 of a fresh process: `WM_PAINT` before
`WM_NCCREATE` gets the default result; `WM_NCCREATE` stores address 100 in the slot and
sets `m_hwnd`; a later timer tick with another id is answered by that instance. -/
theorem WindowProc_dispatch_witness :
    WindowProc MainWindow.derived createStructAt100 envOk freshProcess 7 WM_PAINT 0 0
      = .ok (0, freshProcess)
    ∧ ∃ r p', WindowProc MainWindow.derived createStructAt100 envOk freshProcess 7
          WM_NCCREATE 0 0 = .ok (r, p')
        ∧ p'.userData 7 = 100 ∧ (p'.object 100).m_hwnd = 7
        ∧ ∃ p'', WindowProc MainWindow.derived createStructAt100 envOk p' 7 WM_TIMER 2 0
            = .ok (0, p'')
          ∧ p''.object 100 = p'.object 100 := by
  refine ⟨(WindowProc_dispatch MainWindow.derived createStructAt100 envOk freshProcess 7
    WM_PAINT 0 0).1 (by decide) rfl, ?_⟩
  have h2 := (WindowProc_dispatch MainWindow.derived createStructAt100 envOk freshProcess 7
    WM_NCCREATE 0 0).2.1 100 (by decide) rfl
  have hH : MainWindow.derived.HandleMessage envOk
      (MainWindow.derived.set_m_hwnd 7 (freshProcess.object 100)) WM_NCCREATE 0 0
      = .ok (0, { MainWindow.new ⟨⟨0, 0⟩, 0, 0⟩ with
          m_hwnd := 7, trace := [.DefWindowProc 7 WM_NCCREATE 0 0] }) := by
    simp [MainWindow.derived, HandleMessage, WM_NCCREATE, WM_CREATE, WM_DESTROY, WM_PAINT,
      WM_SIZE, WM_TIMER, freshProcess, MainWindow.new, emit, envOk]
  rw [hH] at h2
  refine ⟨_, _, h2, by simp, by simp, ?_⟩
  have h3 := (WindowProc_dispatch MainWindow.derived createStructAt100 envOk
    { userData := Function.update freshProcess.userData 7 100,
      object := Function.update freshProcess.object 100
        { MainWindow.new ⟨⟨0, 0⟩, 0, 0⟩ with
          m_hwnd := 7, trace := [.DefWindowProc 7 WM_NCCREATE 0 0] } }
    7 WM_TIMER 2 0).2.2.1 100 (by decide) (by simp) (by decide)
  have hT : MainWindow.derived.HandleMessage envOk
      ({ MainWindow.new ⟨⟨0, 0⟩, 0, 0⟩ with
          m_hwnd := 7, trace := [.DefWindowProc 7 WM_NCCREATE 0 0] }) WM_TIMER 2 0
      = .ok (0, { MainWindow.new ⟨⟨0, 0⟩, 0, 0⟩ with
          m_hwnd := 7, trace := [.DefWindowProc 7 WM_NCCREATE 0 0] }) := by
    simp [MainWindow.derived, HandleMessage_WM_TIMER, MainWindow.new]
  simp only [Function.update_same] at h3
  rw [hT] at h3
  exact ⟨_, h3, by simp⟩

/-! ### The calls of a paint that draws -/

theorem painted_since (e : Env) (s1 : MainWindow) (t pre : List Call)
    (rt : ID2D1HwndRenderTarget) (b : Handle) (h1 : s1.trace = t ++ pre) :
    ∃ rel : List Call, (∀ c ∈ rel, ∃ h, c = .Release h)
      ∧ (present e.endDrawHr (s1.emit (frame e.localTime s1 rt b))).since t
          = pre ++ frame e.localTime s1 rt b ++ rel ++ [.EndPaint s1.m_hwnd] := by
  obtain ⟨rel, htr, hrel⟩ := present_trace e.endDrawHr (s1.emit (frame e.localTime s1 rt b))
  refine ⟨rel, hrel, since_append _ _ _ ?_⟩
  rw [htr]
  simp [emit, h1]

theorem mem_frame_EndDraw (t : SYSTEMTIME) (s : MainWindow) (rt : ID2D1HwndRenderTarget)
    (b : Handle) : Call.EndDraw rt.handle ∈ frame t s rt b := by
  simp [frame]

/-! ## C10: presenting the frame -/

/-- C10: for every paint that completes and has called `EndDraw`: the resources were
there when the frame was drawn; if `EndDraw` answers a failure code or the
recreate-target code, then after `OnPaint` both pRenderTarget and pBrush are null; if it
succeeds, they are as `CreateGraphicsResources` left them; in both cases pFactory,
pWriteFactory, pTextFormat, the ellipse and timeElapsed are as `CreateGraphicsResources`
left them, and `DiscardGraphicsResources` itself never modifies them. -/
theorem OnPaint_EndDraw (e : Env) (s s' : MainWindow) (hp : OnPaint e s = .ok s')
    (hd : ∃ h, Call.EndDraw h ∈ s'.since s.trace) :
    ∃ hr s1, CreateGraphicsResources e s = .ok (hr, s1)
      ∧ s1.pRenderTarget ≠ none ∧ s1.pBrush ≠ none
      ∧ ((FAILED e.endDrawHr = true ∨ e.endDrawHr = D2DERR_RECREATE_TARGET) →
          s'.pRenderTarget = none ∧ s'.pBrush = none)
      ∧ (SUCCEEDED e.endDrawHr = true →
          s'.pRenderTarget = s1.pRenderTarget ∧ s'.pBrush = s1.pBrush)
      ∧ s'.pFactory = s1.pFactory ∧ s'.pWriteFactory = s1.pWriteFactory
      ∧ s'.pTextFormat = s1.pTextFormat ∧ s'.ellipse = s1.ellipse
      ∧ s'.timeElapsed = s1.timeElapsed
      ∧ ∀ x : MainWindow, (DiscardGraphicsResources x).pFactory = x.pFactory
          ∧ (DiscardGraphicsResources x).pWriteFactory = x.pWriteFactory
          ∧ (DiscardGraphicsResources x).pTextFormat = x.pTextFormat
          ∧ (DiscardGraphicsResources x).ellipse = x.ellipse
          ∧ (DiscardGraphicsResources x).timeElapsed = x.timeElapsed := by
  have key : ∀ (hr : HRESULT) (s1 : MainWindow) (rt : ID2D1HwndRenderTarget) (b : Handle),
      CreateGraphicsResources e s = .ok (hr, s1) → s1.pRenderTarget = some rt →
      s1.pBrush = some b →
      s' = present e.endDrawHr (s1.emit (frame e.localTime s1 rt b)) →
      ∃ hr s1, CreateGraphicsResources e s = .ok (hr, s1)
      ∧ s1.pRenderTarget ≠ none ∧ s1.pBrush ≠ none
      ∧ ((FAILED e.endDrawHr = true ∨ e.endDrawHr = D2DERR_RECREATE_TARGET) →
          s'.pRenderTarget = none ∧ s'.pBrush = none)
      ∧ (SUCCEEDED e.endDrawHr = true →
          s'.pRenderTarget = s1.pRenderTarget ∧ s'.pBrush = s1.pBrush)
      ∧ s'.pFactory = s1.pFactory ∧ s'.pWriteFactory = s1.pWriteFactory
      ∧ s'.pTextFormat = s1.pTextFormat ∧ s'.ellipse = s1.ellipse
      ∧ s'.timeElapsed = s1.timeElapsed
      ∧ ∀ x : MainWindow, (DiscardGraphicsResources x).pFactory = x.pFactory
          ∧ (DiscardGraphicsResources x).pWriteFactory = x.pWriteFactory
          ∧ (DiscardGraphicsResources x).pTextFormat = x.pTextFormat
          ∧ (DiscardGraphicsResources x).ellipse = x.ellipse
          ∧ (DiscardGraphicsResources x).timeElapsed = x.timeElapsed := by
    intro hr s1 rt b hc hrt hb hs'
    obtain ⟨p1, p2, p3, p4⟩ := present_fields e.endDrawHr (s1.emit (frame e.localTime s1 rt b))
    obtain ⟨e1, e2, e3, e4⟩ := emit_fields s1 (frame e.localTime s1 rt b)
    obtain ⟨c1, c2, c3, c4, -, -⟩ := sameCore_trans _ _ _ e2 p2
    refine ⟨hr, s1, hc, by simp [hrt], by simp [hb], ?_, ?_, ?_, ?_, ?_, ?_, ?_, ?_⟩
    · intro hfail
      rw [hs']
      refine p3 ?_
      rcases hfail with hf | hf
      · simp [hf]
      · simp [hf]
    · intro hok
      rw [hs']
      have hno : (FAILED e.endDrawHr || e.endDrawHr == D2DERR_RECREATE_TARGET) = false := by
        simp only [SUCCEEDED, decide_eq_true_eq] at hok
        simp only [FAILED, D2DERR_RECREATE_TARGET, Bool.or_eq_false_iff, decide_eq_false_iff_not,
          not_lt, beq_eq_false_iff_ne, ne_eq]
        refine ⟨hok, fun h => ?_⟩
        rw [h] at hok
        norm_num at hok
      obtain ⟨q1, q2⟩ := p4 hno
      exact ⟨q1.trans e3, q2.trans e4⟩
    · rw [hs']; exact c1
    · rw [hs']; exact c2
    · rw [hs']; exact c3
    · rw [hs']; exact p1.trans e1
    · rw [hs']; exact c4
    · intro x
      obtain ⟨-, -, d3, d4, d5, d6, d7, -, -⟩ := DiscardGraphicsResources_fields x
      exact ⟨d4, d5, d6, d3, d7⟩
  obtain ⟨h, hmem⟩ := hd
  rcases hrt : s.pRenderTarget with _ | rt
  · rcases hf : s.pFactory with _ | f
    · rw [OnPaint_null_factory e s hrt hf] at hp
      cases hp
    · rcases ht : SUCCEEDED e.renderTargetHr with _ | _
      · rw [OnPaint_target_fails e s f hrt hf ht] at hp
        cases hp
        simp [since] at hmem
      · rcases hb : SUCCEEDED e.brushHr with _ | _
        · rw [OnPaint_brush_fails e s f hrt hf ht hb] at hp
          cases hp
          simp [since] at hmem
        · obtain ⟨s1, hs1, hc, hp2⟩ := OnPaint_created e s f hrt hf ht hb
          rw [hp2] at hp
          cases hp
          refine key _ s1 _ _ hc ?_ ?_ rfl
          · rw [hs1, (CalculateLayout_fields _).1]
          · rw [hs1, (CalculateLayout_fields _).2.1]
  · rcases hb : s.pBrush with _ | b
    · rw [OnPaint_null_brush e s rt hrt hb] at hp
      cases hp
    · rw [OnPaint_ready e s rt b hrt hb] at hp
      cases hp
      exact key _ s rt b (CreateGraphicsResources_some e s rt hrt) hrt hb rfl

theorem created_reaches_EndDraw (e : Env) (s : MainWindow) (f : Handle)
    (h : s.pRenderTarget = none) (hf : s.pFactory = some f)
    (hrt : SUCCEEDED e.renderTargetHr = true) (hb : SUCCEEDED e.brushHr = true) :
    ∃ s', OnPaint e s = .ok s' ∧ Call.EndDraw e.renderTargetPtr ∈ s'.since s.trace := by
  obtain ⟨s1, hs1, -, hp⟩ := OnPaint_created e s f h hf hrt hb
  refine ⟨_, hp, ?_⟩
  obtain ⟨rel, -, hsince⟩ := painted_since e s1 s.trace
    [.GetClientRect s.m_hwnd,
      .CreateHwndRenderTarget f s.m_hwnd (SizeU e.clientRect.right e.clientRect.bottom),
      .CreateSolidColorBrush e.renderTargetPtr (.rgb 1 1 0)]
    ⟨e.renderTargetPtr, dipSize e.dpi (SizeU e.clientRect.right e.clientRect.bottom)⟩
    e.brushPtr (by rw [hs1, (CalculateLayout_fields _).2.2.2.2.2.2.2.2])
  rw [hsince]
  simp only [List.mem_append]
  exact Or.inl (Or.inl (Or.inr (mem_frame_EndDraw _ _ _ _)))

/-- Witness of `OnPaint_EndDraw`: the first paint of the created view, when `EndDraw`
reports a lost device and when it succeeds. -/
theorem OnPaint_EndDraw_witness :
    (∃ s', OnPaint envDeviceLost createdView = .ok s'
      ∧ s'.pRenderTarget = none ∧ s'.pBrush = none)
    ∧ (∃ s', OnPaint envOk createdView = .ok s'
      ∧ s'.pRenderTarget ≠ none ∧ s'.pBrush ≠ none) := by
  constructor
  · obtain ⟨s', hp, hmem⟩ := created_reaches_EndDraw envDeviceLost createdView 1 rfl rfl
      (by decide) (by decide)
    obtain ⟨hr, s1, -, -, -, hlost, -⟩ := OnPaint_EndDraw envDeviceLost createdView s' hp
      ⟨_, hmem⟩
    exact ⟨s', hp, hlost (Or.inr rfl)⟩
  · obtain ⟨s', hp, hmem⟩ := created_reaches_EndDraw envOk createdView 1 rfl rfl
      (by decide) (by decide)
    obtain ⟨hr, s1, -, h1, h2, -, hok, -⟩ := OnPaint_EndDraw envOk createdView s' hp ⟨_, hmem⟩
    obtain ⟨k1, k2⟩ := hok (by decide)
    exact ⟨s', hp, by rw [k1]; exact h1, by rw [k2]; exact h2⟩

theorem frame_draws (t : SYSTEMTIME) (s : MainWindow) (rt : ID2D1HwndRenderTarget)
    (b : Handle) (c : Call) (hc : c ∈ frame t s rt b) (hd : c.isDraw = true) :
    c.usesNull = false ∧ c.target? = some rt.handle := by
  simp only [frame, List.mem_cons, List.mem_singleton, List.not_mem_nil, or_false] at hc
  rcases hc with rfl | rfl | rfl | rfl | rfl | rfl | rfl | rfl | rfl | rfl | rfl | rfl | rfl
    | rfl | rfl | rfl | rfl | rfl | rfl | rfl | rfl <;>
    simp [Call.isDraw, Call.usesNull, Call.brush?, Call.target?] at hd ⊢

/-! ## C7: the paint after a discard -/

/-- C7: for every view state, right after `DiscardGraphicsResources` both pRenderTarget
and pBrush are null, and the next `OnPaint` first asks for the client rectangle and calls
`CreateHwndRenderTarget`; only if that succeeds it calls `CreateSolidColorBrush`; only if
that succeeds too it issues the frame, on the new render target with the new brush. So
every drawing call of that paint comes after both creations succeeded, is issued on the
new render target and is handed a non-null brush. (Without a factory the paint faults at
the creation attempt, before any drawing call.) -/
theorem OnPaint_after_discard (e : Env) (s : MainWindow) :
    let s0 := DiscardGraphicsResources s
    let size := SizeU e.clientRect.right e.clientRect.bottom
    s0.pRenderTarget = none ∧ s0.pBrush = none
    ∧ match OnPaint e s0 with
      | .error f => s0.pFactory = none ∧ f.ptr = .pFactory
          ∧ f.trace = s0.trace ++ [.GetClientRect s0.m_hwnd]
      | .ok s' => ∃ fac, s0.pFactory = some fac
          ∧ (if SUCCEEDED e.renderTargetHr then
              if SUCCEEDED e.brushHr then
                ∃ s1 rel, (∀ c ∈ rel, ∃ h, c = Call.Release h)
                  ∧ s'.since s0.trace
                    = [.GetClientRect s0.m_hwnd, .CreateHwndRenderTarget fac s0.m_hwnd size,
                        .CreateSolidColorBrush e.renderTargetPtr (.rgb 1 1 0)]
                      ++ frame e.localTime s1 ⟨e.renderTargetPtr, dipSize e.dpi size⟩ e.brushPtr
                      ++ rel ++ [.EndPaint s0.m_hwnd]
              else
                s'.since s0.trace
                  = [.GetClientRect s0.m_hwnd, .CreateHwndRenderTarget fac s0.m_hwnd size,
                      .CreateSolidColorBrush e.renderTargetPtr (.rgb 1 1 0)]
            else
              s'.since s0.trace
                = [.GetClientRect s0.m_hwnd, .CreateHwndRenderTarget fac s0.m_hwnd size])
          ∧ ∀ c ∈ s'.since s0.trace, c.isDraw = true →
              SUCCEEDED e.renderTargetHr = true ∧ SUCCEEDED e.brushHr = true
              ∧ c.usesNull = false ∧ c.target? = some e.renderTargetPtr := by
  intro s0 size
  obtain ⟨d1, d2, -, -⟩ := DiscardGraphicsResources_fields s
  refine ⟨d1, d2, ?_⟩
  rcases hf : s0.pFactory with _ | f
  · rw [OnPaint_null_factory e s0 d1 hf]
    exact ⟨rfl, rfl, rfl⟩
  · rcases ht : SUCCEEDED e.renderTargetHr with _ | _
    · rw [OnPaint_target_fails e s0 f d1 hf ht]
      refine ⟨f, rfl, ?_, ?_⟩
      · simp [since, size]
      · intro c hc hd
        simp [since] at hc
        rcases hc with rfl | rfl <;> simp [Call.isDraw] at hd
    · rcases hb : SUCCEEDED e.brushHr with _ | _
      · rw [OnPaint_brush_fails e s0 f d1 hf ht hb]
        refine ⟨f, rfl, ?_, ?_⟩
        · simp [since, size]
        · intro c hc hd
          simp [since] at hc
          rcases hc with rfl | rfl | rfl <;> simp [Call.isDraw] at hd
      · obtain ⟨s1, hs1, -, hp⟩ := OnPaint_created e s0 f d1 hf ht hb
        have hm : s1.m_hwnd = s0.m_hwnd := by
          rw [hs1, (CalculateLayout_fields _).2.2.2.2.2.2.2.1]
        obtain ⟨rel, hrel, hsince⟩ := painted_since e s1 s0.trace
          [.GetClientRect s0.m_hwnd, .CreateHwndRenderTarget f s0.m_hwnd size,
            .CreateSolidColorBrush e.renderTargetPtr (.rgb 1 1 0)]
          ⟨e.renderTargetPtr, dipSize e.dpi size⟩
          e.brushPtr (by rw [hs1, (CalculateLayout_fields _).2.2.2.2.2.2.2.2])
        rw [hm] at hsince
        rw [hp]
        refine ⟨f, rfl, ?_, ?_⟩
        · simp only [if_true]
          exact ⟨s1, rel, hrel, hsince⟩
        · intro c hc hd
          refine ⟨rfl, rfl, ?_⟩
          rw [hsince] at hc
          simp only [List.mem_append, List.mem_cons, List.mem_singleton, List.not_mem_nil,
            or_false] at hc
          rcases hc with ((hc | hc) | hc) | hc
          · rcases hc with rfl | rfl | rfl <;> simp [Call.isDraw] at hd
          · exact frame_draws _ _ _ _ c hc hd
          · obtain ⟨x, rfl⟩ := hrel c hc
            simp [Call.isDraw] at hd
          · rw [hc] at hd
            simp [Call.isDraw] at hd

theorem HandleMessage_WM_PAINT (e : Env) (s : MainWindow) (wParam : WPARAM)
    (lParam : LPARAM) :
    HandleMessage e s WM_PAINT wParam lParam
      = (OnPaint e s).map (fun s' => ((0 : LRESULT), s')) := by
  unfold HandleMessage
  simp only [WM_CREATE, WM_DESTROY, WM_PAINT]
  norm_num
  cases OnPaint e s <;> rfl

/-! ## C6: all-or-nothing resources -/

/-- C6, the code at the failing input: window 7 is created for the instance at address
100 (`WM_NCCREATE`, then a successful `WM_CREATE`) and then painted while the brush cannot
be created. All three messages return 0, and at the end of that paint pRenderTarget is
non-null while pBrush is null. The next `WM_PAINT`, whatever the platform answers, creates
nothing and faults on the null brush after `Clear`. -/
theorem brush_failure_reachable :
    ∃ p rt, deliver MainWindow.derived createStructAt100 7 freshProcess brushFailureRun
        = .ok ([0, 0, 0], p)
      ∧ (p.object 100).pRenderTarget = some rt ∧ (p.object 100).pBrush = none
      ∧ ¬ ((p.object 100).pRenderTarget = none ↔ (p.object 100).pBrush = none)
      ∧ ∀ e : Env, WindowProc MainWindow.derived createStructAt100 e p 7 WM_PAINT 0 0
          = .error (.inHandler { ptr := .pBrush, trace := (p.object 100).trace ++
              [.BeginPaint 7, .BeginDraw 4, .Clear 4 .LightSkyBlue] }) := by
  have hrun : ∃ p rt, deliver MainWindow.derived createStructAt100 7 freshProcess
        brushFailureRun = .ok ([0, 0, 0], p)
      ∧ (p.object 100).pRenderTarget = some rt ∧ (p.object 100).pBrush = none
      ∧ p.userData 7 = 100 ∧ (p.object 100).m_hwnd = 7 ∧ rt.handle = 4 :=
    ⟨_, _, rfl, rfl, rfl, rfl, rfl, rfl⟩
  obtain ⟨p, rt, h1, h2, h3, h4, h5, h6⟩ := hrun
  refine ⟨p, rt, h1, h2, h3, ?_, ?_⟩
  · rw [h2, h3]
    simp
  · intro e
    rw [WindowProc_forward MainWindow.derived createStructAt100 e p 7 WM_PAINT 0 0 100
      (by decide) h4 (by decide)]
    have hH : MainWindow.derived.HandleMessage e (p.object 100) WM_PAINT 0 0
        = (OnPaint e (p.object 100)).map (fun s' => ((0 : LRESULT), s')) :=
      HandleMessage_WM_PAINT e (p.object 100) 0 0
    rw [hH, OnPaint_null_brush e (p.object 100) rt h2 h3, h5, h6]
    rfl

/-! ## C8: destruction -/

/-- C8, the code at the failing input: `WM_DESTROY` on the painted view returns 0 after
`KillTimer`, the release of the render target, the brush and the Direct2D factory, and
`PostQuitMessage`; pWriteFactory and pTextFormat are neither released nor set to null. -/
theorem WM_DESTROY_leaks (e : Env) :
    ∃ s', HandleMessage e paintedView WM_DESTROY 0 0 = .ok (0, s')
      ∧ s'.since paintedView.trace
          = [.KillTimer 7 1, .Release 4, .Release 5, .Release 1, .PostQuitMessage 0]
      ∧ s'.pRenderTarget = none ∧ s'.pBrush = none ∧ s'.pFactory = none
      ∧ s'.pWriteFactory = some 2 ∧ s'.pTextFormat = some 3 :=
  ⟨_, rfl, rfl, rfl, rfl, rfl, rfl, rfl⟩

/-! ## C9: failed acquisition -/

/-- C9, the code at the failing input: when the render target cannot be created, the
first paint of the created view draws nothing and leaves both resources null (so the next
paint starts with the creation again); but when the render target is created and the
brush is not, the paint draws nothing and leaves pRenderTarget non-null with a null
pBrush, and the next paint, whatever the platform answers, creates nothing and faults on
the null brush after `Clear`. -/
theorem brush_failure_not_retried :
    (∃ s1, OnPaint envTargetFails createdView = .ok s1
      ∧ draws (s1.since createdView.trace) = []
      ∧ s1.pRenderTarget = none ∧ s1.pBrush = none)
    ∧ ∃ s1 rt, OnPaint envBrushFails createdView = .ok s1
      ∧ draws (s1.since createdView.trace) = []
      ∧ s1.pRenderTarget = some rt ∧ s1.pBrush = none
      ∧ ∀ e : Env, OnPaint e s1 = .error { ptr := .pBrush, trace := s1.trace ++
          [.BeginPaint 7, .BeginDraw 4, .Clear 4 .LightSkyBlue] } := by
  have h0 := OnPaint_target_fails envTargetFails createdView 1 rfl rfl (by decide)
  have h := OnPaint_brush_fails envBrushFails createdView 1 rfl rfl (by decide) (by decide)
  refine ⟨⟨_, h0, by decide, rfl, rfl⟩, _, _, h, by decide, rfl, rfl, fun e => ?_⟩
  rw [OnPaint_null_brush e _ _ rfl rfl]
  rfl

/-! ### Lemmas for the scenario -/

theorem FAILED_of_SUCCEEDED (hr : HRESULT) (h : SUCCEEDED hr = true) : FAILED hr = false := by
  simp only [SUCCEEDED, decide_eq_true_eq] at h
  simp only [FAILED, decide_eq_false_iff_not, not_lt]
  exact h

theorem HandleMessage_WM_CREATE (e : Env) (s : MainWindow) (wParam : WPARAM)
    (lParam : LPARAM) (h1 : SUCCEEDED e.factoryHr = true)
    (h2 : SUCCEEDED e.writeFactoryHr = true) (h3 : SUCCEEDED e.textFormatHr = true) :
    HandleMessage e s WM_CREATE wParam lParam = .ok (0, s.created e) := by
  unfold HandleMessage
  simp [FAILED_of_SUCCEEDED _ h1, FAILED_of_SUCCEEDED _ h2, FAILED_of_SUCCEEDED _ h3, outPtr,
    h1, h2, h3, emit, created]

theorem HandleMessage_WM_SIZE (e : Env) (s : MainWindow) (wParam : WPARAM)
    (lParam : LPARAM) :
    HandleMessage e s WM_SIZE wParam lParam = .ok (0, Resize e s) := by
  unfold HandleMessage
  simp [WM_CREATE, WM_DESTROY, WM_PAINT, WM_SIZE]

theorem Resize_none (e : Env) (s : MainWindow) (h : s.pRenderTarget = none) :
    Resize e s = s := by
  unfold Resize
  rw [h]

theorem scenario_start (g : D2D1_ELLIPSE) (eCreate eSize : Env) (msgs : List Msg)
    (h1 : SUCCEEDED eCreate.factoryHr = true) (h2 : SUCCEEDED eCreate.writeFactoryHr = true)
    (h3 : SUCCEEDED eCreate.textFormatHr = true) :
    handleAll MainWindow.derived (MainWindow.new g)
        (⟨eCreate, WM_CREATE, 0, 0⟩ :: ⟨eSize, WM_SIZE, 0, 0⟩ :: msgs)
      = match handleAll MainWindow.derived ((MainWindow.new g).created eCreate) msgs with
        | .error f => .error f
        | .ok (rs, d) => .ok (0 :: 0 :: rs, d) := by
  have a : MainWindow.derived.HandleMessage eCreate (MainWindow.new g) WM_CREATE 0 0
      = .ok (0, (MainWindow.new g).created eCreate) :=
    HandleMessage_WM_CREATE eCreate (MainWindow.new g) 0 0 h1 h2 h3
  have b : MainWindow.derived.HandleMessage eSize ((MainWindow.new g).created eCreate)
      WM_SIZE 0 0 = .ok (0, (MainWindow.new g).created eCreate) := by
    have := HandleMessage_WM_SIZE eSize ((MainWindow.new g).created eCreate) 0 0
    rw [Resize_none eSize _ rfl] at this
    exact this
  rw [handleAll]
  simp only
  rw [a]
  simp only
  rw [handleAll]
  simp only
  rw [b]
  simp only
  rcases handleAll MainWindow.derived ((MainWindow.new g).created eCreate) msgs
    with f | ⟨rs, d⟩ <;> rfl

theorem dipSize_200x100 (e : Env) (ha : e.area200x100) :
    dipSize e.dpi (SizeU e.clientRect.right e.clientRect.bottom) = ⟨200, 100⟩ := by
  obtain ⟨h1, h2, h3⟩ := ha
  have a : ((200 : Int) % 2 ^ 32).toNat = 200 := by decide
  have b : ((100 : Int) % 2 ^ 32).toNat = 100 := by decide
  rw [h1, h2, h3]
  simp only [dipSize, SizeU, a, b]
  norm_num

theorem present_laidOut (hr : HRESULT) (s : MainWindow) (h : s.laidOut) :
    (present hr s).laidOut := by
  obtain ⟨p1, -, p3, p4⟩ := present_fields hr s
  rcases hd : (FAILED hr || hr == D2DERR_RECREATE_TARGET) with _ | _
  · obtain ⟨q1, q2⟩ := p4 hd
    unfold laidOut
    rw [q1, q2, p1]
    exact h
  · exact Or.inl (p3 hd)

/-- A paint that draws, from a laid-out view in a 200 by 100 client area. -/
theorem OnPaint_laidOut_frame (e : Env) (s : MainWindow) (f : Handle)
    (hf : s.pFactory = some f) (hl : s.laidOut) (ha : e.area200x100)
    (hok : s.pRenderTarget = none →
      SUCCEEDED e.renderTargetHr = true ∧ SUCCEEDED e.brushHr = true) :
    ∃ s1 rt b pre, OnPaint e s = .ok (present e.endDrawHr (s1.emit (frame e.localTime s1 rt b)))
      ∧ s1.ellipse = ellipse200x100 ∧ rt.size = ⟨200, 100⟩
      ∧ s1.pRenderTarget = some rt ∧ s1.pBrush = some b
      ∧ s.sameCore s1 ∧ s1.trace = s.trace ++ pre
      ∧ draws pre = [] ∧ rotations pre = [] := by
  rcases hrt : s.pRenderTarget with _ | rt
  · obtain ⟨ht, hb⟩ := hok hrt
    obtain ⟨s1, hs1, -, hp⟩ := OnPaint_created e s f hrt hf ht hb
    rw [dipSize_200x100 e ha] at hs1 hp
    rw [CalculateLayout_some _ ⟨e.renderTargetPtr, ⟨200, 100⟩⟩ rfl] at hs1
    refine ⟨s1, _, _, [.GetClientRect s.m_hwnd,
      .CreateHwndRenderTarget f s.m_hwnd (SizeU e.clientRect.right e.clientRect.bottom),
      .CreateSolidColorBrush e.renderTargetPtr (.rgb 1 1 0)], hp, ?_, rfl, ?_, ?_, ?_, ?_, ?_, ?_⟩
    · rw [hs1]
      simp only [ellipse200x100]
      norm_num
    · rw [hs1]
    · rw [hs1]
    · rw [hs1]
      simp [sameCore]
    · rw [hs1]
    · simp [draws, Call.isDraw]
    · simp [rotations, Call.rotation?]
  · rcases hl with ⟨h1, -⟩ | ⟨rt', b, h1, h2, h3, h4⟩
    · rw [hrt] at h1
      cases h1
    · rw [hrt] at h1
      cases h1
      exact ⟨s, rt, b, [], OnPaint_ready e s rt b hrt h3, h4, h2, hrt, h3, sameCore_refl s,
        by simp, rfl, rfl⟩

theorem laidOut_of_frame (s1 : MainWindow) (rt : ID2D1HwndRenderTarget) (b : Handle)
    (cs : List Call) (hE : s1.ellipse = ellipse200x100) (hsz : rt.size = ⟨200, 100⟩)
    (hrt : s1.pRenderTarget = some rt) (hb : s1.pBrush = some b) :
    (s1.emit cs).laidOut :=
  Or.inr ⟨rt, b, hrt, hsz, hb, hE⟩

theorem OnPaint_laidOut (e : Env) (s : MainWindow) (f : Handle)
    (hf : s.pFactory = some f) (hl : s.laidOut) (ha : e.area200x100)
    (hb : SUCCEEDED e.renderTargetHr = true → SUCCEEDED e.brushHr = true) :
    ∃ s', OnPaint e s = .ok s' ∧ s'.laidOut ∧ s.sameCore s' := by
  by_cases hcase : s.pRenderTarget = none ∧ SUCCEEDED e.renderTargetHr = false
  · obtain ⟨h1, h2⟩ := hcase
    refine ⟨_, OnPaint_target_fails e s f h1 hf h2, ?_, by simp [sameCore]⟩
    rcases hl with ⟨-, h3⟩ | ⟨rt', b, h3, -⟩
    · exact Or.inl ⟨h1, h3⟩
    · rw [h1] at h3
      cases h3
  · have hok : s.pRenderTarget = none →
        SUCCEEDED e.renderTargetHr = true ∧ SUCCEEDED e.brushHr = true := by
      intro h1
      have h2 : SUCCEEDED e.renderTargetHr = true := by
        rcases h : SUCCEEDED e.renderTargetHr with _ | _
        · exact absurd ⟨h1, h⟩ hcase
        · rfl
      exact ⟨h2, hb h2⟩
    obtain ⟨s1, rt, b, pre, hp, hE, hsz, hrt, hbr, hcore, -, -, -⟩ :=
      OnPaint_laidOut_frame e s f hf hl ha hok
    refine ⟨_, hp, present_laidOut _ _ (laidOut_of_frame s1 rt b _ hE hsz hrt hbr), ?_⟩
    exact sameCore_trans _ _ _ hcore (sameCore_trans _ _ _ (emit_fields _ _).2.1
      (present_fields _ _).2.1)

theorem ticks_run (ticks : List Env)
    (hticks : ∀ e ∈ ticks, e.area200x100
      ∧ (SUCCEEDED e.renderTargetHr = true → SUCCEEDED e.brushHr = true)) :
    ∀ (s : MainWindow) (f : Handle), s.pFactory = some f → s.laidOut → s.timerId = 1 →
      s.timeElapsed < 2 ^ 64 →
      ∃ rs sT, handleAll MainWindow.derived s (ticks.map tickMsg) = .ok (rs, sT)
        ∧ (∀ r ∈ rs, r = 0) ∧ sT.laidOut
        ∧ sT.pFactory = s.pFactory ∧ sT.pWriteFactory = s.pWriteFactory
        ∧ sT.pTextFormat = s.pTextFormat ∧ sT.timerId = s.timerId ∧ sT.m_hwnd = s.m_hwnd
        ∧ sT.timeElapsed = (s.timeElapsed + ticks.length) % 2 ^ 64 := by
  induction ticks with
  | nil =>
    intro s f _ hl _ hlt
    exact ⟨[], s, rfl, by simp, hl, rfl, rfl, rfl, rfl, rfl,
      by rw [List.length_nil, Nat.add_zero, Nat.mod_eq_of_lt hlt]⟩
  | cons e es ih =>
    intro s f hf hl hid hlt
    obtain ⟨ha, hb⟩ := hticks e (List.mem_cons_self _ _)
    have hl2 : ({ s with timeElapsed := (s.timeElapsed + 1) % 2 ^ 64 } : MainWindow).laidOut := hl
    obtain ⟨s1, hp, hl1, c1, c2, c3, c4, c5, c6⟩ :=
      OnPaint_laidOut e { s with timeElapsed := (s.timeElapsed + 1) % 2 ^ 64 } f hf hl2 ha hb
    simp only at c1 c2 c3 c4 c5 c6
    have hstep : MainWindow.derived.HandleMessage e s WM_TIMER 1 0 = .ok (0, s1) := by
      have := HandleMessage_WM_TIMER e s 1 0
      rw [if_pos hid.symm, hp] at this
      exact this
    obtain ⟨rs, sT, hrun, hrs, hlT, d1, d2, d3, d4, d5, d6⟩ :=
      ih (fun x hx => hticks x (List.mem_cons_of_mem _ hx)) s1 f (c1.trans hf) hl1
        (c5.trans hid) (by rw [c4]; exact Nat.mod_lt _ (by norm_num))
    refine ⟨0 :: rs, sT, ?_, ?_, hlT, d1.trans c1, d2.trans c2, d3.trans c3, d4.trans c5,
      d5.trans c6, ?_⟩
    · simp only [List.map_cons, handleAll, tickMsg]
      rw [hstep]
      simp only
      have hrun' : handleAll MainWindow.derived s1 (List.map tickMsg es) = .ok (rs, sT) := hrun
      rw [hrun']
    · intro r hr
      rcases List.mem_cons.mp hr with rfl | h
      · rfl
      · exact hrs r h
    · rw [d6, c4, List.length_cons, Nat.mod_add_mod]
      congr 1
      omega

theorem draws_append (as bs : List Call) : draws (as ++ bs) = draws as ++ draws bs := by
  simp [draws]

theorem draws_releases (rel : List Call) (h : ∀ c ∈ rel, ∃ x, c = .Release x) :
    draws rel = [] := by
  unfold draws
  rw [List.filter_eq_nil_iff]
  intro c hc
  obtain ⟨x, rfl⟩ := h c hc
  simp [Call.isDraw]

theorem counterText_5 : counterText 5 = "50" ∧ (counterText 5).length = 2 := ⟨rfl, rfl⟩

/-! ## C5: the end-to-end scenario -/

/-- C5: starting from a freshly constructed view (whatever its uninitialised ellipse),
after a successful `WM_CREATE`, a `WM_SIZE` with the client area at 200x100 (at 96 DPI),
and five matching timer ticks in none of which the brush creation fails, every message
has returned 0 and timeElapsed = 5; a `WM_PAINT` at local time 06:30:00 in which the
resource creations succeed then returns 0 and paints the ellipse of center (100,50) and
radius 45, sets the rotations 195, 180 and 0 for the hour, minute and second hands, and
draws the counter text "50". -/
theorem clock_scenario (g : D2D1_ELLIPSE) (eCreate eSize : Env) (ticks : List Env)
    (ePaint : Env) (h : scenario eCreate eSize ticks ePaint) :
    ∃ rs sT sF rt b,
      handleAll MainWindow.derived (MainWindow.new g) (scenarioMsgs eCreate eSize ticks)
        = .ok (rs, sT)
      ∧ (∀ r ∈ rs, r = 0)
      ∧ sT.timeElapsed = 5
      ∧ HandleMessage ePaint sT WM_PAINT 0 0 = .ok (0, sF)
      ∧ sF.ellipse = ⟨⟨100, 50⟩, 45, 45⟩
      ∧ sF.timeElapsed = 5
      ∧ rotations (sF.since sT.trace) = [195, 180, 0]
      ∧ draws (sF.since sT.trace)
          = [.Clear rt .LightSkyBlue,
             .FillEllipse rt ⟨⟨100, 50⟩, 45, 45⟩ (some b),
             .DrawEllipse rt ⟨⟨100, 50⟩, 45, 45⟩ (some b) 10,
             .DrawLine rt ⟨100, 50⟩ ⟨100, 50 - 45 * (55 / 100)⟩ (some b) 6,
             .DrawLine rt ⟨100, 50⟩ ⟨100, 50 - 45 * (7 / 10)⟩ (some b) 4,
             .DrawLine rt ⟨100, 50⟩ ⟨100, 50 - 45 * (9 / 10)⟩ (some b) 2,
             .DrawText rt "50" 2 (some eCreate.textFormatPtr) ⟨0, 0, 200, 100⟩ (some b)] := by
  obtain ⟨c1, c2, c3, -, hlen, hticks, haP, hH, hM, hS, hrtP, hbP⟩ := h
  obtain ⟨rs, sT, hrun, hrs, hlT, d1, d2, d3, d4, d5, d6⟩ := ticks_run ticks hticks
    ((MainWindow.new g).created eCreate) eCreate.factoryPtr rfl (Or.inl ⟨rfl, rfl⟩) rfl
    (by simp [MainWindow.new, created])
  have hte : sT.timeElapsed = 5 := by
    rw [d6, hlen]
    simp [MainWindow.new, created]
  obtain ⟨s1, rt, b, pre, hp, hE, hsz, hrt, hbr, hcore, htr, hdp, hrp⟩ :=
    OnPaint_laidOut_frame ePaint sT eCreate.factoryPtr d1 hlT haP (fun _ => ⟨hrtP, hbP⟩)
  obtain ⟨rel, hrel, hsince⟩ := painted_since ePaint s1 sT.trace pre rt b htr
  obtain ⟨k1, k2, k3, k4, k5, k6⟩ := hcore
  refine ⟨0 :: 0 :: rs, sT, present ePaint.endDrawHr (s1.emit (frame ePaint.localTime s1 rt b)),
    rt.handle, b, ?_, ?_, hte, ?_, ?_, ?_, ?_, ?_⟩
  · simp only [scenarioMsgs, List.cons_append, List.nil_append]
    rw [scenario_start g eCreate eSize _ c1 c2 c3, hrun]
  · intro r hr
    rcases List.mem_cons.mp hr with rfl | hr
    · rfl
    · rcases List.mem_cons.mp hr with rfl | hr
      · rfl
      · exact hrs r hr
  · rw [HandleMessage_WM_PAINT, hp]
    rfl
  · rw [(present_fields _ _).1, (emit_fields _ _).1, hE]
    rfl
  · rw [(present_fields _ _).2.1.2.2.2.1, (emit_fields _ _).2.1.2.2.2.1, k4, hte]
  · rw [hsince]
    simp only [rotations_append, hrp, rotations_frame, rotations_releases rel hrel]
    simp only [rotations, Call.rotation?, hourAngle, minuteAngle, secondAngle, hH, hM, hS]
    norm_num
    rfl
  · rw [hsince]
    simp only [draws_append, hdp, draws_releases rel hrel]
    simp only [draws, frame, hE, hsz, k4, hte, k3, d3, counterText_5.1, ellipse200x100]
    simp only [List.filter, Call.isDraw, List.nil_append, List.append_nil]
    exact congrArg₂ _ rfl rfl

/-- Witness of `clock_scenario`: every call succeeds, except that in the second tick the
render target cannot be created and in the third the device is lost. -/
theorem clock_scenario_witness :
    ∃ rs sT sF, handleAll MainWindow.derived (MainWindow.new ⟨⟨0, 0⟩, 0, 0⟩)
          (scenarioMsgs envOk envOk scenarioTicks) = .ok (rs, sT)
      ∧ sT.timeElapsed = 5
      ∧ HandleMessage envOk sT WM_PAINT 0 0 = .ok (0, sF)
      ∧ sF.ellipse = ⟨⟨100, 50⟩, 45, 45⟩
      ∧ rotations (sF.since sT.trace) = [195, 180, 0] := by
  have hs : scenario envOk envOk scenarioTicks envOk := by
    refine ⟨by decide, by decide, by decide, ⟨rfl, rfl, rfl⟩, rfl, ?_, ⟨rfl, rfl, rfl⟩, rfl, rfl,
      rfl, by decide, by decide⟩
    intro e he
    simp only [scenarioTicks, List.mem_cons, List.mem_singleton, List.not_mem_nil, or_false]
      at he
    rcases he with rfl | rfl | rfl | rfl | rfl <;>
      exact ⟨⟨rfl, rfl, rfl⟩, by decide⟩
  obtain ⟨rs, sT, sF, rt, b, h1, -, h3, h4, h5, -, h7, -⟩ :=
    clock_scenario ⟨⟨0, 0⟩, 0, 0⟩ envOk envOk scenarioTicks envOk hs
  exact ⟨rs, sT, sF, h1, h3, h4, h5, h7⟩

/-! ## C2: the hand angles -/

/-- C2: for every view state and every answer of the platform: a paint completes exactly
when the view can paint without going through a null pointer; a completed paint that had
its render target, or created both resources, sets on the render target exactly three
rotations, in order hourAngle = 360*(hour/12) + 30*(minute/60), minuteAngle =
360*(minute/60) and secondAngle = 360*(second/60) of the local time, depending on nothing
else; a completed paint whose resource creation failed draws nothing and sets no
rotation, and so does a paint that faults; in particular a view holding its render target
and brush always paints with these three rotations; (3,0,0) gives 90, 0, 0 and (6,30,0)
gives hour 195, minute 180. -/
theorem OnPaint_hand_angles (e : Env) (s : MainWindow) (ms : Nat) :
    ((∃ s', OnPaint e s = .ok s') ↔ s.canPaint)
    ∧ (∀ s', OnPaint e s = .ok s' →
        ((s.pRenderTarget ≠ none
            ∨ (SUCCEEDED e.renderTargetHr = true ∧ SUCCEEDED e.brushHr = true)) →
          rotations (s'.since s.trace)
            = [360 * ((e.localTime.wHour : ℚ) / 12) + 30 * ((e.localTime.wMinute : ℚ) / 60),
               360 * ((e.localTime.wMinute : ℚ) / 60),
               360 * ((e.localTime.wSecond : ℚ) / 60)])
        ∧ (¬ (s.pRenderTarget ≠ none
              ∨ (SUCCEEDED e.renderTargetHr = true ∧ SUCCEEDED e.brushHr = true)) →
            draws (s'.since s.trace) = [] ∧ rotations (s'.since s.trace) = []))
    ∧ (∀ f, OnPaint e s = .error f → rotations (f.trace.drop s.trace.length) = [])
    ∧ (∀ rt b, s.pRenderTarget = some rt → s.pBrush = some b →
        ∃ s', OnPaint e s = .ok s'
          ∧ rotations (s'.since s.trace)
            = [360 * ((e.localTime.wHour : ℚ) / 12) + 30 * ((e.localTime.wMinute : ℚ) / 60),
               360 * ((e.localTime.wMinute : ℚ) / 60),
               360 * ((e.localTime.wSecond : ℚ) / 60)])
    ∧ hourAngle e.localTime
        = 360 * ((e.localTime.wHour : ℚ) / 12) + 30 * ((e.localTime.wMinute : ℚ) / 60)
    ∧ minuteAngle e.localTime = 360 * ((e.localTime.wMinute : ℚ) / 60)
    ∧ secondAngle e.localTime = 360 * ((e.localTime.wSecond : ℚ) / 60)
    ∧ hourAngle ⟨3, 0, 0, ms⟩ = 90 ∧ minuteAngle ⟨3, 0, 0, ms⟩ = 0
    ∧ secondAngle ⟨3, 0, 0, ms⟩ = 0
    ∧ hourAngle ⟨6, 30, 0, ms⟩ = 195 ∧ minuteAngle ⟨6, 30, 0, ms⟩ = 180 := by
  have hH : hourAngle e.localTime
      = 360 * ((e.localTime.wHour : ℚ) / 12) + 30 * ((e.localTime.wMinute : ℚ) / 60) := by
    unfold hourAngle
    norm_num
  have hM : minuteAngle e.localTime = 360 * ((e.localTime.wMinute : ℚ) / 60) := rfl
  have hS : secondAngle e.localTime = 360 * ((e.localTime.wSecond : ℚ) / 60) := rfl
  refine ⟨OnPaint_ok_iff e s, ?_, ?_, ?_, hH, hM, hS, ?_, ?_, ?_, ?_, ?_⟩
  · intro s' hp
    rw [← hH, ← hM, ← hS]
    rcases hrt : s.pRenderTarget with _ | rt
    · rcases hf : s.pFactory with _ | f
      · rw [OnPaint_null_factory e s hrt hf] at hp
        cases hp
      · rcases ht : SUCCEEDED e.renderTargetHr with _ | _
        · rw [OnPaint_target_fails e s f hrt hf ht] at hp
          cases hp
          refine ⟨fun h => ?_, fun _ => ?_⟩
          · rcases h with h | ⟨h, -⟩
            · exact absurd rfl h
            · cases h
          · simp [since, draws, rotations, Call.rotation?, Call.isDraw]
        · rcases hb : SUCCEEDED e.brushHr with _ | _
          · rw [OnPaint_brush_fails e s f hrt hf ht hb] at hp
            cases hp
            refine ⟨fun h => ?_, fun _ => ?_⟩
            · rcases h with h | ⟨-, h⟩
              · exact absurd rfl h
              · cases h
            · simp [since, draws, rotations, Call.rotation?, Call.isDraw]
          · obtain ⟨s1, hs1, -, hp2⟩ := OnPaint_created e s f hrt hf ht hb
            rw [hp2] at hp
            cases hp
            refine ⟨fun _ => ?_, fun h => absurd (Or.inr ⟨rfl, rfl⟩) h⟩
            refine rotations_painted e s1 s.trace [.GetClientRect s.m_hwnd,
              .CreateHwndRenderTarget f s.m_hwnd (SizeU e.clientRect.right e.clientRect.bottom),
              .CreateSolidColorBrush e.renderTargetPtr (.rgb 1 1 0)] _ _ ?_ ?_
            · rw [hs1, (CalculateLayout_fields _).2.2.2.2.2.2.2.2]
            · simp [rotations, Call.rotation?]
    · rcases hb : s.pBrush with _ | b
      · rw [OnPaint_null_brush e s rt hrt hb] at hp
        cases hp
      · rw [OnPaint_ready e s rt b hrt hb] at hp
        cases hp
        refine ⟨fun _ => ?_, fun h => absurd (Or.inl (by simp)) h⟩
        exact rotations_painted e s s.trace [] rt b (by simp) rfl
  · intro f hp
    rcases hrt : s.pRenderTarget with _ | rt
    · rcases hf : s.pFactory with _ | fac
      · rw [OnPaint_null_factory e s hrt hf] at hp
        cases hp
        simp [rotations, Call.rotation?]
      · obtain ⟨s', hs'⟩ := (OnPaint_ok_iff e s).mpr
          ⟨fun _ => by simp [hf], fun h => absurd hrt h⟩
        rw [hs'] at hp
        cases hp
    · rcases hb : s.pBrush with _ | b
      · rw [OnPaint_null_brush e s rt hrt hb] at hp
        cases hp
        simp [rotations, Call.rotation?]
      · rw [OnPaint_ready e s rt b hrt hb] at hp
        cases hp
  · intro rt b hrt hb
    rw [← hH, ← hM, ← hS]
    exact ⟨_, OnPaint_ready e s rt b hrt hb,
      rotations_painted e s s.trace [] rt b (by simp) rfl⟩
  · norm_num [hourAngle]
  · norm_num [minuteAngle]
  · norm_num [secondAngle]
  · norm_num [hourAngle]
  · norm_num [minuteAngle]

/-- Witness of `OnPaint_hand_angles` at 06:30:00: the painted view, which holds its
resources, and the created view, which creates them in this paint, both complete the paint
with the rotations 195, 180 and 0. -/
theorem OnPaint_hand_angles_witness :
    (∃ s', OnPaint envOk paintedView = .ok s'
      ∧ rotations (s'.since paintedView.trace) = [195, 180, 0])
    ∧ (∃ s', OnPaint envOk createdView = .ok s'
      ∧ rotations (s'.since createdView.trace) = [195, 180, 0]) := by
  constructor
  · obtain ⟨s', hp, hr⟩ := (OnPaint_hand_angles envOk paintedView 0).2.2.2.1 _ _ rfl rfl
    refine ⟨s', hp, ?_⟩
    rw [hr]
    norm_num [envOk]
  · obtain ⟨hret, hrot, -⟩ := OnPaint_hand_angles envOk createdView 0
    obtain ⟨s', hp⟩ := hret.mpr ⟨fun _ => by simp [createdView], fun h => absurd rfl h⟩
    refine ⟨s', hp, ?_⟩
    rw [(hrot s' hp).1 (Or.inr ⟨by decide, by decide⟩)]
    norm_num [envOk]

end Win32Template
